import Mathlib

/-!
# ActiveGenerals — verification of the collection/extraction pipeline

Shallow embedding of the Evony Active Generals Tracker (Python) covering:

* `src/ocr/ocr_engine.py` — `extract_text`, `extract_number`, `extract_image`,
  `check_pixel_color` (EasyOCR engine path, the default configuration);
* `src/navigation/game_navigator.py` — the generals-list filter state machine
  (`set_generals_list_state` / `reset_generals_list_state`) and
  `get_total_generals_count`;
* `src/export/excel_exporter.py` — `combine_images_side_by_side`;
* `src/models/general.py` — the `General` record and `get_average_confidence`;
* `src/controllers/application_controller.py` — `_collect_single_general` and
  its `_extract_*` helpers.

Modelling conventions: Python floats are modelled as exact rationals (ℚ);
raw byte buffers as `List Nat`; decoded images as width/height plus a pixel
function; the external libraries (PIL, OpenCV, EasyOCR) as opaque environment
functions, so that every pure decision made by the repository's own code is
explicit.  Stateful calls (screenshots, taps) are modelled by an environment
recording the outcome of each call site, one field per site.
-/

namespace ActiveGenerals

/-- Raw byte buffer (Python `bytes`).  Python truthiness of a buffer is
`¬ isEmpty`; `None` is modelled by `Option`. -/
abbrev Bytes := List Nat

/-- A decoded image (PIL `Image`): pixel dimensions plus RGB pixel data,
indexed `pixel row col` as in the numpy array the code builds. -/
structure Img where
  width : Nat
  height : Nat
  pixel : Nat → Nat → Int × Int × Int

/-- A named OCR region rectangle `(x1, y1, x2, y2)` from `locations.xml`
(`OCREngine.regions`). -/
abbrev Rect := Nat × Nat × Nat × Nat

/-- `OCRResult` dataclass from `src/ocr/ocr_engine.py`. -/
structure OCRResult where
  text : String
  confidence : ℚ
deriving DecidableEq, Repr

/-- `NumberResult` dataclass from `src/ocr/ocr_engine.py` (the code only ever
constructs it with a parsed non-negative value). -/
structure NumberResult where
  value : Nat
  confidence : ℚ
deriving DecidableEq, Repr

/-- The configuration keys consulted by the embedded code, with the
defaults from `config.get(...)` in `src/ocr/ocr_engine.py` and
`src/controllers/application_controller.py`. -/
structure Config where
  confidence_threshold : ℚ := 4/5
  postprocessed_confidence_threshold : ℚ := 2/5
  preprocessing_enabled : Bool := true

/-- External environment of the OCR engine: image decoding (PIL), the
image-enhancement passes (OpenCV/PIL internals, opaque here), the EasyOCR
`readtext` call returning `(text, confidence)` fragments, and PNG re-encoding.
`readerOk` models whether `easyocr.Reader` initialisation succeeded
(`self.reader` being non-`None`). -/
structure OCREnv where
  readerOk : Bool
  decode : Bytes → Option Img
  crop : Img → Rect → Img
  enhanceGeneralText : Img → Img
  enhanceCharRec : Img → Img
  preprocessOther : Img → Img
  readtext : Img → List (String × ℚ)
  encodePng : Img → Bytes

/-! ### Python string primitives

The source manipulates Python `str` values (sequences of code points);
they are modelled on `List Char` with structural functions (the core `String`
operations are avoided so that every concrete evaluation reduces).  ASCII
semantics are assumed, which matches the OCR output the code handles. -/

/-- ASCII whitespace stripped by Python `str.strip()`. -/
def isPySpace (c : Char) : Bool :=
  c = ' ' || c = '\t' || c = '\n' || c = '\x0b' || c = '\x0c' || c = '\r'

/-- Python `str.strip()` on the char-list representation. -/
def trimChars (l : List Char) : List Char :=
  ((l.dropWhile isPySpace).reverse.dropWhile isPySpace).reverse

/-- Python `str.strip()`. -/
def pyStrip (s : String) : String := String.mk (trimChars s.toList)

/-- Python `sep.join(parts)` on char lists. -/
def joinChars (sep : List Char) : List (List Char) → List Char
  | [] => []
  | [x] => x
  | x :: xs => x ++ sep ++ joinChars sep xs

/-- Python `sep.join(parts)`. -/
def pyJoin (sep : String) (parts : List String) : String :=
  String.mk (joinChars sep.toList (parts.map String.toList))

/-- Python `str.split(sep)` for a single-character separator, on char lists:
splitting an empty string yields one empty part. -/
def splitChar (sep : Char) : List Char → List (List Char)
  | [] => [[]]
  | c :: rest =>
    let r := splitChar sep rest
    if c = sep then [] :: r
    else match r with
      | [] => [[c]]
      | x :: xs => (c :: x) :: xs

/-- Python `str.split(sep)` for a single-character separator. -/
def pySplitChar (sep : Char) (s : String) : List String :=
  (splitChar sep s.toList).map String.mk

/-- The `character_enhanced_regions` list, written twice in
`src/ocr/ocr_engine.py` (lines 180 and 208) with identical contents: regions
that get the general-text binarization plus character-recognition enhancement,
and the lowered confidence threshold. -/
def characterEnhancedRegions : List String :=
  ["GeneralsListExp", "GeneralsListName", "GeneralsListLevel", "GeneralsListPower",
   "GeneralsListPower1", "GeneralsListPower2", "GeneralsListExp1", "GeneralsListExp2"]

/-- Membership of an optional region name in `characterEnhancedRegions`
(Python `region in character_enhanced_regions`; `None` is never a member). -/
def isCharRegion (region : Option String) : Bool :=
  match region with
  | some r => characterEnhancedRegions.contains r
  | none => false

/-- Lookup in the OCR region table (`region in self.regions` plus
`self.regions[region]`). -/
def lookupRegion (regions : List (String × Rect)) (name : String) : Option Rect :=
  (regions.find? (fun p => p.1 = name)).map (fun p => p.2)

/-- The acceptance threshold used by `extract_text` (lines 204–210): the
postprocessed threshold when preprocessing is enabled, the baseline otherwise,
lowered to at most 0.3 for character-enhanced regions.  It depends only on the
`preprocessing_enabled` flag and the region class — never on whether the
enhancement pass actually succeeded. -/
def effectiveThreshold (cfg : Config) (region : Option String) : ℚ :=
  let t := if cfg.preprocessing_enabled then cfg.postprocessed_confidence_threshold
           else cfg.confidence_threshold
  if isCharRegion region then min t (3/10) else t

/-- Cropping plus region-class preprocessing applied by `extract_text`
(lines 165–192) before OCR runs. -/
def processedImage (env : OCREnv) (cfg : Config) (regions : List (String × Rect))
    (img : Img) (region : Option String) : Img :=
  let cropped := match region.bind (lookupRegion regions) with
    | some rect => env.crop img rect
    | none => img
  if cfg.preprocessing_enabled then
    if isCharRegion region then env.enhanceCharRec (env.enhanceGeneralText cropped)
    else env.preprocessOther cropped
  else cropped

/-- Fragment filtering and joining of `extract_text` (lines 212–227): keep
fragments whose confidence is at least `threshold`, join them space-separated,
average the kept confidences; empty OCR output or no surviving fragment is
`None`. -/
def joinFragments (threshold : ℚ) (results : List (String × ℚ)) : Option OCRResult :=
  if results.isEmpty then none
  else
    let kept := results.filter (fun p => threshold ≤ p.2)
    if kept.isEmpty then none
    else some ⟨pyJoin " " (kept.map (fun p => p.1)),
               (kept.map (fun p => p.2)).sum / (kept.length : ℚ)⟩

/-- `OCREngine.extract_text` (EasyOCR path, lines 153–241).  Every failure
(uninitialised reader, undecodable bytes, no surviving fragment) returns
`none`; an unknown region name skips the crop and processes the full image. -/
def extract_text (env : OCREnv) (cfg : Config) (regions : List (String × Rect))
    (imageBytes : Bytes) (region : Option String) : Option OCRResult :=
  if !env.readerOk then none
  else match env.decode imageBytes with
  | none => none
  | some img =>
    joinFragments (effectiveThreshold cfg region)
      (env.readtext (processedImage env cfg regions img region))

/-- One step of the Python regex `\d+(?:,\d{3})*`: the leading maximal digit
run (`\d+`, greedy). `\d` is modelled on ASCII digits. -/
def takeDigits (l : List Char) : List Char × List Char :=
  (l.takeWhile Char.isDigit, l.dropWhile Char.isDigit)

/-- The `(?:,\d{3})*` part: greedily consume `,` followed by exactly three
digits, as many times as possible. -/
def takeCommaGroups : List Char → List Char × List Char
  | ',' :: a :: b :: c :: rest =>
    if a.isDigit && b.isDigit && c.isDigit then
      let p := takeCommaGroups rest
      (',' :: a :: b :: c :: p.1, p.2)
    else ([], ',' :: a :: b :: c :: rest)
  | l => ([], l)

/-- `re.findall(r'\d+(?:,\d{3})*', text)`, fuelled for structural recursion:
scan left to right, at each digit take the maximal `\d+` run then the
comma-grouped continuation, and resume after the match.  Every recursive call
consumes at least the leading character (the continuations only ever drop
elements), so fuel equal to the input length never runs out and the `0` case
is reached only on the empty list. -/
def findRunsGo : Nat → List Char → List String
  | 0, _ => []
  | _ + 1, [] => []
  | fuel + 1, c :: rest =>
    if c.isDigit then
      let p := takeDigits rest
      let q := takeCommaGroups p.2
      String.mk (c :: (p.1 ++ q.1)) :: findRunsGo fuel q.2
    else findRunsGo fuel rest

/-- All matches of the numeric pattern in a character sequence. -/
def findRuns (l : List Char) : List String :=
  findRunsGo l.length l

/-- Python `int()` on a run already known to be plain digits (the matches
with commas stripped are always non-empty digit strings, so the
`ValueError` branch is unreachable there but modelled anyway). -/
def parseDigits? (cs : List Char) : Option Nat :=
  if !cs.isEmpty && cs.all Char.isDigit then
    some (cs.foldl (fun n c => 10 * n + (c.toNat - '0'.toNat)) 0)
  else none

/-- The numeric matches of a text, commas stripped and parsed
(`match.replace(',', '')` then `int(...)`, lines 255–263). -/
def matchValues (t : String) : List Nat :=
  (findRuns t.toList).filterMap (fun r => parseDigits? (r.toList.filter (fun c => c ≠ ',')))

/-- Python `max(values)` over a list of ints, `none` on an empty list. -/
def pyMaxNat (l : List Nat) : Option Nat :=
  l.foldl (fun acc v => match acc with
    | none => some v
    | some m => some (max m v)) none

/-- `OCREngine.extract_number` (lines 243–276): runs `extract_text`, parses
all comma-grouped-or-plain digit runs, returns the maximum with the text
confidence scaled by 0.95. -/
def extract_number (env : OCREnv) (cfg : Config) (regions : List (String × Rect))
    (imageBytes : Bytes) (region : Option String) : Option NumberResult :=
  match extract_text env cfg regions imageBytes region with
  | none => none
  | some tr =>
    match pyMaxNat (matchValues tr.text) with
    | some v => some ⟨v, tr.confidence * (19/20)⟩
    | none => none

/-- `OCREngine.extract_image` (lines 278–300): decode, crop when the region
name is known (full image otherwise), re-encode as PNG. -/
def extract_image (env : OCREnv) (regions : List (String × Rect))
    (imageBytes : Bytes) (region : Option String) : Option Bytes :=
  match env.decode imageBytes with
  | none => none
  | some img =>
    let img2 := match region.bind (lookupRegion regions) with
      | some rect => env.crop img rect
      | none => img
    some (env.encodePng img2)

/-- Reduction of an integer into `numpy.uint8` range: two's-complement
wraparound modulo 256. -/
def u8 (x : Int) : Nat := (x % 256).toNat

/-- `OCREngine.check_pixel_color` (lines 302–353): decode, resolve the region
to a single pixel (the exact point for degenerate rectangles, the centre
otherwise), bounds-check, then compare `np.sqrt` of the squared RGB distance
against the tolerance.  The pixel read from `np.array(image)` is a triple of
`uint8` scalars, so each channel difference, each squaring and each of the
two (left-associated) additions wraps modulo 256 before the square root is
taken; the `sqrt dist2 <= tolerance` test on a machine integer `dist2 < 256`
is stated exactly as `0 <= tolerance ∧ dist2 <= tolerance ^ 2`.  A missing
region or undecodable buffer yields `false`. -/
def check_pixel_color (env : OCREnv) (regions : List (String × Rect))
    (imageBytes : Bytes) (region : String) (expected : Int × Int × Int)
    (tolerance : Int) : Bool :=
  match env.decode imageBytes with
  | none => false
  | some img =>
    match lookupRegion regions region with
    | none => false
    | some (x1, y1, x2, y2) =>
      let px := if x1 = x2 && y1 = y2 then x1 else (x1 + x2) / 2
      let py := if x1 = x2 && y1 = y2 then y1 else (y1 + y2) / 2
      if px ≥ img.width || py ≥ img.height then false
      else
        let c := img.pixel py px
        let d1 := u8 ((u8 c.1 : Int) - expected.1)
        let d2 := u8 ((u8 c.2.1 : Int) - expected.2.1)
        let d3 := u8 ((u8 c.2.2 : Int) - expected.2.2)
        let dist2 : Nat := ((d1 ^ 2 % 256 + d2 ^ 2 % 256) % 256 + d3 ^ 2 % 256) % 256
        0 ≤ tolerance ∧ (dist2 : Int) ≤ tolerance ^ 2

/-! ## Navigator (`src/navigation/game_navigator.py`) -/

/-- The digit part of a Python `int()` literal after the sign: one or more
ASCII digits with single underscores allowed only between digits. -/
def digitsURest : List Char → Bool
  | [] => true
  | '_' :: c :: rest => c.isDigit && digitsURest rest
  | '_' :: [] => false
  | c :: rest => c.isDigit && digitsURest rest

/-- Non-empty digit sequence accepted by Python `int()` (underscore grouping
included). -/
def digitsU : List Char → Bool
  | [] => false
  | c :: rest => c.isDigit && digitsURest rest

/-- Numeric value of an ASCII digit sequence. -/
def natOfDigits (cs : List Char) : Nat :=
  cs.foldl (fun n c => 10 * n + (c.toNat - '0'.toNat)) 0

/-- Python `int(s)`: strip whitespace, optional sign, digits (ASCII, with
underscore grouping); `none` models `ValueError`. -/
def pyInt? (s : String) : Option Int :=
  let cs := trimChars s.toList
  let sd : Int × List Char := match cs with
    | '-' :: rest => (-1, rest)
    | '+' :: rest => (1, rest)
    | _ => (1, cs)
  if digitsU sd.2 then
    some (sd.1 * (natOfDigits (sd.2.filter (fun c => c ≠ '_')) : Int))
  else none

/-- The count parsing of `get_total_generals_count` (lines 363–372), applied
to the text of a successful OCR read: strip, require a `/`, split into exactly
two parts, parse the first as an int; any failure yields `(0, stripped_text)`. -/
def parseCountText (text : String) : Int × String :=
  let t := pyStrip text
  if t.toList.contains '/' then
    match pySplitChar '/' t with
    | [current, _total] =>
      match pyInt? current with
      | some n => (n, t)
      | none => (0, t)
    | _ => (0, t)
  else (0, t)

/-- `GameNavigator.get_total_generals_count` (lines 350–376): a missing or
empty screenshot, or a failed OCR read, yields `(0, "")`; otherwise the count
text is parsed by `parseCountText`. -/
def getTotalGeneralsCount (env : OCREnv) (cfg : Config) (regions : List (String × Rect))
    (shot : Option Bytes) : Int × String :=
  match shot with
  | none => (0, "")
  | some b =>
    if b.isEmpty then (0, "")
    else match extract_text env cfg regions b (some "GeneralsListCount") with
    | none => (0, "")
    | some res => parseCountText res.text

/-- The guard at `application_controller.py` lines 116–117: a non-positive
count raises `RuntimeError("No generals found")`, a terminal error for the
run. -/
def checkGeneralsCount (n : Int) : Except String Int :=
  if n ≤ 0 then .error "No generals found" else .ok n

/-- On-screen activation state of the three generals-list filter toggles. -/
structure FilterScreen where
  modeActive : Bool
  favoritesActive : Bool
  idleActive : Bool
deriving DecidableEq, Repr

/-- `GameNavigator.state_change_flags`: per-filter "did this run change it"
flags, reset at the start of `set_generals_list_state`. -/
structure FilterFlags where
  mode : Bool := false
  favorites : Bool := false
  idle : Bool := false
deriving DecidableEq, Repr

/-- Environment of the filter state machine: per-preset tap success
(`_tap_preset`), screenshot capture success, and the result of
`_compare_with_reference_image` for each toggle as a function of the screen
content captured in the screenshot. -/
structure NavEnv where
  tapOk : String → Bool
  shotOk : Bool
  cmp : String → FilterScreen → Bool

/-- Effect of a successful tap on one of the three binary filter toggles:
the corresponding on-screen flag flips (any other preset leaves the filter
state alone). -/
def tapFilterToggle (preset : String) (s : FilterScreen) : FilterScreen :=
  if preset = "GeneralsListMode" then { s with modeActive := !s.modeActive }
  else if preset = "GeneralsListFavorites" then { s with favoritesActive := !s.favoritesActive }
  else if preset = "GeneralsListIdle" then { s with idleActive := !s.idleActive }
  else s

/-- `GameNavigator.set_generals_list_state` (lines 274–327).  Flags are reset,
the "All" tab is tapped, one screenshot of the screen `s` is captured, and
each toggle is compared against its reference image on that same (stale)
screenshot: the mode toggle is tapped when the comparison returns `true`, the
favorites and idle toggles when it returns `false`; the per-filter flag is
recorded exactly when the tap succeeded.  The returned Boolean is the
method's result; a failed tap aborts with the flags recorded so far. -/
def setGeneralsListState (env : NavEnv) (s : FilterScreen) :
    Bool × FilterFlags × FilterScreen :=
  if !env.tapOk "All" then (false, {}, s)
  else if !env.shotOk then (false, {}, s)
  else
    let m := env.cmp "GeneralsListMode" s
    if m && !env.tapOk "GeneralsListMode" then (false, {}, s)
    else
      let f1 : FilterFlags := { mode := m }
      let s1 := if m then tapFilterToggle "GeneralsListMode" s else s
      let fv := !env.cmp "GeneralsListFavorites" s
      if fv && !env.tapOk "GeneralsListFavorites" then (false, f1, s1)
      else
        let f2 := { f1 with favorites := fv }
        let s2 := if fv then tapFilterToggle "GeneralsListFavorites" s1 else s1
        let iv := !env.cmp "GeneralsListIdle" s
        if iv && !env.tapOk "GeneralsListIdle" then (false, f2, s2)
        else (true, { f2 with idle := iv },
              if iv then tapFilterToggle "GeneralsListIdle" s2 else s2)

/-- `GameNavigator.reset_generals_list_state` (lines 329–348): replay a tap on
exactly the toggles whose flag was recorded (tap results are not checked; a
tap that fails to land leaves the screen unchanged). -/
def resetGeneralsListState (env : NavEnv) (flags : FilterFlags) (s : FilterScreen) :
    Bool × FilterScreen :=
  let s1 := if flags.mode && env.tapOk "GeneralsListMode" then
              tapFilterToggle "GeneralsListMode" s else s
  let s2 := if flags.favorites && env.tapOk "GeneralsListFavorites" then
              tapFilterToggle "GeneralsListFavorites" s1 else s1
  let s3 := if flags.idle && env.tapOk "GeneralsListIdle" then
              tapFilterToggle "GeneralsListIdle" s2 else s2
  (true, s3)

/-! ## Exporter (`src/export/excel_exporter.py`) -/

/-- External PIL environment used by the exporter: decoding, resampling
content for `Image.resize` (the resized image has exactly the requested
dimensions), pasting onto a canvas, and PNG encoding. -/
structure PILEnv where
  decode : Bytes → Option Img
  resample : Img → Nat → Nat → (Nat → Nat → Int × Int × Int)
  blank : Nat → Nat → Img
  paste : Img → Img → Nat → Img
  encodePng : Img → Bytes

/-- PIL `Image.resize((w, h))`: an image of exactly the requested size. -/
def pilResize (env : PILEnv) (i : Img) (w h : Nat) : Img :=
  { width := w, height := h, pixel := env.resample i w h }

/-- Sequencing of the per-element `PILImage.open` calls: the first failure
raises, so one failed decode fails the whole batch. -/
def sequenceOpt : List (Option Img) → Option (List Img)
  | [] => some []
  | none :: _ => none
  | some a :: rest => (sequenceOpt rest).map (fun l => a :: l)

/-- `ExcelExporter.combine_images_side_by_side` (lines 299–353).  Empty list →
empty bytes; single element → that element unchanged; otherwise open every
truthy buffer (any decode failure → empty bytes), normalise all images to the
maximum height preserving aspect ratio (`int(max_height * aspect)`, exact
floor; a zero-height image among taller ones raises `ZeroDivisionError`,
caught → empty bytes), and paste them side by side onto an RGBA canvas of the
combined width, re-encoded as PNG. -/
def combine_images_side_by_side (env : PILEnv) (l : List Bytes) : Bytes :=
  match l with
  | [] => []
  | [b] => b
  | _ =>
    let toOpen := l.filter (fun b => !b.isEmpty)
    match sequenceOpt (toOpen.map env.decode) with
    | none => []
    | some imgs =>
      if imgs.isEmpty then []
      else
        let maxH := (imgs.map Img.height).foldl max 0
        if imgs.any (fun i => i.height == 0 && maxH != 0) then []
        else
          let resized := imgs.map (fun i =>
            if i.height ≠ maxH then pilResize env i (maxH * i.width / i.height) maxH else i)
          let totalW := (resized.map Img.width).sum
          let canvas := (resized.foldl
            (fun (acc : Img × Nat) i => (env.paste acc.1 i acc.2, acc.2 + i.width))
            (env.blank totalW maxH, 0)).1
          env.encodePng canvas

/-! ## Data model (`src/models/general.py`) and collector
(`src/controllers/application_controller.py`)

`General` is a Python dataclass; the controller also assigns extra attributes
dynamically (`is_purple_general`, `specialty_names`, `covenant_names`, the
combined images).  Those are modelled as `Option` fields with `none` meaning
"attribute never assigned" — reading such a field in Python raises
`AttributeError`.  `exp_ratio` is modelled under the name `expText`. -/

structure General where
  name : String := ""
  level : Option Int := none
  type_image : Bytes := []
  power : Option Int := none
  expText : String := ""
  stars_image : Bytes := []
  cultivation_data : String := ""
  covenant_data : String := ""
  is_purple_general : Option Bool := none
  specialty_names : Option String := none
  specialty_combined_image : Option Bytes := none
  covenant_names : Option String := none
  covenant_combined_image : Option Bytes := none
  covenant_attributes_image : Option Bytes := none
  confidence_scores : List (String × ℚ) := []
  is_uncertain : Bool := false
deriving DecidableEq, Repr

/-- Python dict assignment `confidence_scores[k] = v` on the association-list
model: overwrite an existing key, otherwise append. -/
def setScore (m : List (String × ℚ)) (k : String) (v : ℚ) : List (String × ℚ) :=
  if m.any (fun p => p.1 = k) then
    m.map (fun p => if p.1 = k then (k, v) else p)
  else m ++ [(k, v)]

/-- Dictionary lookup on the confidence map. -/
def lookupScore (m : List (String × ℚ)) (k : String) : Option ℚ :=
  (m.find? (fun p => p.1 = k)).map (fun p => p.2)

/-- `General.get_average_confidence` (`src/models/general.py` lines 58–63):
0.0 for an empty map, otherwise the mean of the recorded scores. -/
def General.get_average_confidence (g : General) : ℚ :=
  if g.confidence_scores.isEmpty then 0
  else ((g.confidence_scores.map (fun p => p.2)).sum) / (g.confidence_scores.length : ℚ)

/-- The OCR-engine and exporter interface the controller calls through
(`self.ocr_engine`, `self.exporter`): each field is one method, deterministic
in the screenshot bytes and region name.  `templateExists` models the
`Resources/GeneralsListPowerLocation.png` existence check; `resizeHalfPng`
the repeated PIL open→resize-to-50%→save-PNG composite. -/
structure Engine where
  extractText : Bytes → Option String → Option OCRResult
  extractImage : Bytes → Option String → Option Bytes
  checkPixelColor : Bytes → String → (Int × Int × Int) → Int → Bool
  checkTemplateMatch : Bytes → String → Bool
  templateExists : Bool
  combineImages : List Bytes → Bytes
  resizeHalfPng : Bytes → Bytes
  covenantAttributesImage : Bytes

/-- Outcomes of the stateful platform/navigator calls made during one
`_collect_single_general` pass, one field per call site (slot-indexed for the
per-slot loops). -/
structure EntityEnv where
  openDetailsOk : Bool
  mainShot : Option Bytes
  navCultOk : Bool
  cultShot : Option Bytes
  navSpecOk : Bool
  specShot : Option Bytes
  specTapOk : Nat → Bool
  specSlotShot : Nat → Option Bytes
  navCovOk : Bool
  covShot : Option Bytes
  covTapGeneralOk : Bool
  covSlotShot : Nat → Option Bytes

/-- Python `str.find(sub, start)` for a single character, on the char list. -/
def pyFindCharFrom (cs : List Char) (c : Char) (start : Nat) : Option Nat :=
  match (cs.drop start).findIdx? (fun d => d = c) with
  | some i => some (start + i)
  | none => none

/-- The `"Lv ## Name"` parse of `_extract_main_general_data` (lines 284–305):
a leading `"Lv "`, the level between index 3 and the next space, the name
after it; any failure stores the whole text as the name with no level. -/
def parseLvName (fullText : String) (g : General) : General :=
  let t := pyStrip fullText
  let cs := t.toList
  if ['L', 'v', ' '].isPrefixOf cs then
    match pyFindCharFrom cs ' ' 3 with
    | some levelEnd =>
      let levelStr := String.mk ((cs.take levelEnd).drop 3)
      match pyInt? levelStr with
      | some n =>
        { g with level := some n, name := pyStrip (String.mk (cs.drop (levelEnd + 1))) }
      | none => { g with name := t, level := none }
    | none => { g with name := t, level := none }
  else { g with name := t, level := none }

/-- Lexicographic (code-point) string comparison, Python `<` on `str`. -/
def strLtChars : List Char → List Char → Bool
  | [], [] => false
  | [], _ :: _ => true
  | _ :: _, [] => false
  | a :: as, b :: bs => if a < b then true else if b < a then false else strLtChars as bs

/-- Python `max` over a list of strings (lexicographic); `none` on empty. -/
def pyMaxString (l : List String) : Option String :=
  l.foldl (fun acc s => match acc with
    | none => some s
    | some m => if strLtChars m.toList s.toList then some s else some m) none

/-- The power parse of `_extract_main_general_data` (lines 324–334): findall
the numeric pattern, take the **lexicographically largest match string**
(Python `max` over `str`), strip commas, parse. -/
def parsePowerText (text : String) : Option Int :=
  match pyMaxString (findRuns text.toList) with
  | some m => (parseDigits? (m.toList.filter (fun c => c ≠ ','))).map (fun n => (n : Int))
  | none => none

/-- The name/level branch of `_extract_main_general_data` (lines 283–308):
a truthy OCR text is parsed by `parseLvName`, anything else clears the name
and level. -/
def mainNameField (r : Option OCRResult) (g : General) : General :=
  match r with
  | some res => if res.text ≠ "" then parseLvName res.text g
                else { g with name := "", level := none }
  | none => { g with name := "", level := none }

/-- `_extract_main_general_data` (lines 279–363): name/level, power (with the
two-location template check), experience text, type and stars images, and the
`name` / `power` / `exp_ratio` confidence entries. -/
def extractMainGeneralData (eng : Engine) (g : General) (shot : Bytes) : General :=
  let nameRes := eng.extractText shot (some "GeneralsListName")
  let g1 := mainNameField nameRes g
  let nameConf := match nameRes with | some r => r.confidence | none => 0
  let g2 := { g1 with confidence_scores := setScore g1.confidence_scores "name" nameConf }
  let useLoc1 := eng.templateExists && eng.checkTemplateMatch shot "GeneralsListPowerLocation"
  let powerRegion := if useLoc1 then "GeneralsListPower1" else "GeneralsListPower2"
  let powerRes := eng.extractText shot (some powerRegion)
  let powerVal := match powerRes with
    | some r => if r.text ≠ "" then parsePowerText r.text else none
    | none => none
  let powerConf := match powerRes with | some r => r.confidence | none => 0
  let g3 := { g2 with
    power := powerVal,
    confidence_scores := setScore g2.confidence_scores "power" powerConf }
  let expRegion := if useLoc1 then "GeneralsListExp1" else "GeneralsListExp2"
  let expRes := eng.extractText shot (some expRegion)
  let expVal := match expRes with | some r => pyStrip r.text | none => ""
  let expConf := match expRes with | some r => r.confidence | none => 0
  let g4 := { g3 with
    expText := expVal,
    confidence_scores := setScore g3.confidence_scores "exp_ratio" expConf }
  let typeRegion := if useLoc1 then "GeneralsListType1" else "GeneralsListType2"
  let typeImg := eng.extractImage shot (some typeRegion)
  let g5 := { g4 with type_image := typeImg.getD [] }
  let starsImg := eng.extractImage shot (some "GeneralsListStars")
  let starsVal := match starsImg with
    | some b => if b.isEmpty then b else eng.resizeHalfPng b
    | none => []
  { g5 with stars_image := starsVal }

/-- The four cultivation stats visited in order (line 385). -/
def cultivationStats : List String := ["Leadership", "Attack", "Defense", "Politics"]

/-- `_extract_cultivation_data` (lines 376–401): the purple-variant flag from
the pixel-color check (negated), one OCR read per stat ("Unknown" and a zero
contribution on failure), the newline-joined parts and the `cultivation`
score as the sum over the four stats divided by 4. -/
def extractCultivationData (eng : Engine) (g : General) (shot : Bytes) : General :=
  let isPurple := !(eng.checkPixelColor shot "GeneralsListCultivatePurple" (123, 81, 8) 20)
  let step := fun (acc : List String × ℚ) (stat : String) =>
    match eng.extractText shot (some ("GeneralsListCultivate" ++ stat)) with
    | some r => if r.text ≠ "" then (acc.1 ++ [pyStrip r.text], acc.2 + r.confidence)
                else (acc.1 ++ ["Unknown"], acc.2)
    | none => (acc.1 ++ ["Unknown"], acc.2)
  let pr := cultivationStats.foldl step ([], 0)
  { g with is_purple_general := some isPurple,
           cultivation_data := pyJoin "\n" pr.1,
           confidence_scores := setScore g.confidence_scores "cultivation" (pr.2 / 4) }

/-- The specialty click presets: `P1`–`P3` for the purple (reduced) variant,
`1`–`5` otherwise (lines 410–417). -/
def specialtyPresets (purple : Bool) : List String :=
  if purple then
    ["GeneralsListSpecialtyP1", "GeneralsListSpecialtyP2", "GeneralsListSpecialtyP3"]
  else
    ["GeneralsListSpecialty1", "GeneralsListSpecialty2", "GeneralsListSpecialty3",
     "GeneralsListSpecialty4", "GeneralsListSpecialty5"]

/-- One iteration of the specialty loop (lines 419–452), slot `idx`:
a failed tap or missing/empty screenshot records "Unknown Specialty" with a
zero contribution; otherwise the slot image and name are extracted and kept
only when both are truthy. -/
def specialtySlotStep (eng : Engine) (env : EntityEnv)
    (acc : List String × List Bytes × ℚ) (ip : Nat × String) :
    List String × List Bytes × ℚ :=
  let names := acc.1
  let images := acc.2.1
  let total := acc.2.2
  if !env.specTapOk ip.1 then (names ++ ["Unknown Specialty"], images, total)
  else match env.specSlotShot ip.1 with
  | none => (names ++ ["Unknown Specialty"], images, total)
  | some shot2 =>
    if shot2.isEmpty then (names ++ ["Unknown Specialty"], images, total)
    else
      let imageData := eng.extractImage shot2 (some ip.2)
      let nameRes := eng.extractText shot2 (some "GeneralsListSpecialtyName")
      match imageData with
      | none => (names ++ ["Unknown Specialty"], images, total)
      | some d =>
        match nameRes with
        | none => (names ++ ["Unknown Specialty"], images, total)
        | some r =>
          if !d.isEmpty && r.text ≠ "" then
            (names ++ [pyStrip r.text], images ++ [d], total + r.confidence)
          else (names ++ ["Unknown Specialty"], images, total)

/-- The whole specialty loop for a given variant flag: fold over the 3 or 5
presets with their slot indices. -/
def specialtySlotsResult (eng : Engine) (env : EntityEnv) (purple : Bool) :
    List String × List Bytes × ℚ :=
  ((specialtyPresets purple).enum).foldl (specialtySlotStep eng env) ([], [], 0)

/-- `_extract_specialty_data` (lines 403–467).  Reading
`general.is_purple_general` before it was ever assigned raises
`AttributeError` (modelled as `.error` carrying the record unchanged);
otherwise the slot loop runs, the names are newline-joined, the slot images
combined side by side (resized to 50% when non-empty) and the `specialty`
score is the summed confidence divided by the slot count (3 or 5). -/
def extractSpecialtyData (eng : Engine) (env : EntityEnv) (g : General)
    (_shot : Bytes) : Except General General :=
  match g.is_purple_general with
  | none => .error g
  | some purple =>
    let res := specialtySlotsResult eng env purple
    let combined := eng.combineImages res.2.1
    let combined2 := if combined.isEmpty then combined else eng.resizeHalfPng combined
    .ok { g with
      specialty_names := some (pyJoin "\n" res.1),
      specialty_combined_image := some combined2,
      confidence_scores := setScore g.confidence_scores "specialty"
        (res.2.2 / (if purple then 3 else 5)) }

/-- One iteration of the covenant loop (lines 490–524), slot `i` of 4:
a missing/empty screenshot records "Unknown Covenant"; otherwise the co-general
image and name are extracted — when the image is truthy but the OCR name read
returned `None`, the unguarded `name_result.text` access raises
`AttributeError` (`none` result); a successful pair is recorded with the
image resized to 50%. -/
def covenantSlotStep (eng : Engine) (env : EntityEnv) (i : Nat)
    (acc : List String × List Bytes × ℚ) :
    Option (List String × List Bytes × ℚ) :=
  let names := acc.1
  let images := acc.2.1
  let total := acc.2.2
  match env.covSlotShot i with
  | none => some (names ++ ["Unknown Covenant"], images, total)
  | some shot2 =>
    if shot2.isEmpty then some (names ++ ["Unknown Covenant"], images, total)
    else
      let imageData := eng.extractImage shot2 (some "GeneralsListCovenantCoGenImage")
      let nameRes := eng.extractText shot2 (some "GeneralsListCovenantCoGenName")
      match imageData with
      | none => some (names ++ ["Unknown Covenant"], images, total)
      | some d =>
        if d.isEmpty then some (names ++ ["Unknown Covenant"], images, total)
        else match nameRes with
        | none => none
        | some r =>
          if r.text ≠ "" then
            some (names ++ [pyStrip r.text], images ++ [eng.resizeHalfPng d],
                  total + r.confidence)
          else some (names ++ ["Unknown Covenant"], images, total)

/-- The covenant loop over the main general plus the 3 covenant generals
(`for i in range(4)`), threading the possible `AttributeError`. -/
def covenantLoop (eng : Engine) (env : EntityEnv) :
    Option (List String × List Bytes × ℚ) :=
  [0, 1, 2, 3].foldlM (fun acc i => covenantSlotStep eng env i acc) ([], [], 0)

/-- `_extract_covenant_data` (lines 469–543).  A failed tap on the covenant
general button records placeholder fields with a zero `covenant` score;
otherwise the 4-slot loop runs (an `AttributeError` escapes with the record
unchanged) and the `covenant` score is the summed confidence **divided
by 3** even though 4 slots contributed (line 543). -/
def extractCovenantData (eng : Engine) (env : EntityEnv) (g : General)
    (_shot : Bytes) : Except General General :=
  if !env.covTapGeneralOk then
    .ok { g with
      covenant_data := "No Covenant Data",
      covenant_names := some "",
      covenant_combined_image := some [],
      covenant_attributes_image := some eng.covenantAttributesImage,
      confidence_scores := setScore g.confidence_scores "covenant" 0 }
  else match covenantLoop eng env with
  | none => .error g
  | some res =>
    let combined := eng.combineImages res.2.1
    let combined2 := if combined.isEmpty then combined else eng.resizeHalfPng combined
    .ok { g with
      covenant_names := some (pyJoin "\n" res.1),
      covenant_combined_image := some combined2,
      covenant_attributes_image := some eng.covenantAttributesImage,
      confidence_scores := setScore g.confidence_scores "covenant" (res.2.2 / 3) }

/-- The body of `_collect_single_general` (lines 208–277) up to the final
classification.  `.error g` covers both the early returns (failed
`open_general_details`, missing main screenshot — lines 214–224) and an
exception caught by the handler at line 273; in every such case the caller
marks the partial record uncertain. -/
def collectSingleBody (eng : Engine) (env : EntityEnv) (cfg : Config) :
    Except General General :=
  if !env.openDetailsOk then .error {}
  else match env.mainShot with
  | none => .error {}
  | some shot =>
    let g1 := extractMainGeneralData eng {} shot
    let g2 := if env.navCultOk then
        (match env.cultShot with
         | some cs => if cs.isEmpty then g1 else extractCultivationData eng g1 cs
         | none => g1)
      else g1
    let specRes := if env.navSpecOk then
        (match env.specShot with
         | some ss => if ss.isEmpty then Except.ok g2 else extractSpecialtyData eng env g2 ss
         | none => Except.ok g2)
      else Except.ok g2
    match specRes with
    | .error e => .error e
    | .ok g3 =>
      let covRes := if env.navCovOk then
          (match env.covShot with
           | some vs => if vs.isEmpty then Except.ok g3 else extractCovenantData eng env g3 vs
           | none => Except.ok g3)
        else Except.ok g3
      match covRes with
      | .error e => .error e
      | .ok g4 =>
        .ok { g4 with
          is_uncertain := decide (g4.get_average_confidence < cfg.confidence_threshold) }

/-- `_collect_single_general`: a normally completed pass returns the record
classified against the threshold; every early-return or exception path
returns the partial record with `is_uncertain` forced to `True`. -/
def collectSingleGeneral (eng : Engine) (env : EntityEnv) (cfg : Config) : General :=
  match collectSingleBody eng env cfg with
  | .ok g => g
  | .error g => { g with is_uncertain := true }

/-- The cultivation paragraph of `_collect_single_general` (lines 233–238) as
a stage function: visited only when navigation succeeds and the screenshot is
truthy, otherwise the record passes through unchanged.  Definitionally equal
to the corresponding block of `collectSingleBody`. -/
def cultStage (eng : Engine) (env : EntityEnv) (g1 : General) : General :=
  if env.navCultOk then
    (match env.cultShot with
     | some cs => if cs.isEmpty then g1 else extractCultivationData eng g1 cs
     | none => g1)
  else g1

/-- The specialty paragraph (lines 240–251) as a stage function: skipped
visits pass the record through as `.ok`; a visited screen may raise. -/
def specStage (eng : Engine) (env : EntityEnv) (g2 : General) :
    Except General General :=
  if env.navSpecOk then
    (match env.specShot with
     | some ss => if ss.isEmpty then Except.ok g2 else extractSpecialtyData eng env g2 ss
     | none => Except.ok g2)
  else Except.ok g2

/-- The covenant paragraph (lines 253–265) as a stage function. -/
def covStage (eng : Engine) (env : EntityEnv) (g3 : General) :
    Except General General :=
  if env.navCovOk then
    (match env.covShot with
     | some vs => if vs.isEmpty then Except.ok g3 else extractCovenantData eng env g3 vs
     | none => Except.ok g3)
  else Except.ok g3

/-- The final classification of a completed pass (lines 267–270): compare the
record's average confidence against the configured threshold. -/
def classifyStage (cfg : Config) (g4 : General) : General :=
  { g4 with is_uncertain := decide (g4.get_average_confidence < cfg.confidence_threshold) }

/-- The tail of the body after the specialty stage: thread a specialty-stage
exception through, otherwise run the covenant stage and classify.
Definitionally equal to the corresponding part of `collectSingleBody`. -/
def covPhase (eng : Engine) (env : EntityEnv) (cfg : Config) :
    Except General General → Except General General
  | .error e => .error e
  | .ok g3 =>
    match covStage eng env g3 with
    | .error e => .error e
    | .ok g4 => .ok (classifyStage cfg g4)

/-- Agreement of two records on everything the cultivation extraction step
writes: the `cultivation` confidence entry, the joined stats text and the
purple-variant flag. -/
abbrev cultFieldsEq (a b : General) : Prop :=
  lookupScore a.confidence_scores "cultivation" = lookupScore b.confidence_scores "cultivation" ∧
  a.cultivation_data = b.cultivation_data ∧
  a.is_purple_general = b.is_purple_general

/-- Agreement of two records on everything the specialty extraction step
writes: the `specialty` confidence entry, the joined names and the combined
slot image. -/
abbrev specFieldsEq (a b : General) : Prop :=
  lookupScore a.confidence_scores "specialty" = lookupScore b.confidence_scores "specialty" ∧
  a.specialty_names = b.specialty_names ∧
  a.specialty_combined_image = b.specialty_combined_image

/-- Agreement of two records on everything the covenant extraction step
writes: the `covenant` confidence entry, the names, the data text and the two
covenant images. -/
abbrev covFieldsEq (a b : General) : Prop :=
  lookupScore a.confidence_scores "covenant" = lookupScore b.confidence_scores "covenant" ∧
  a.covenant_names = b.covenant_names ∧
  a.covenant_data = b.covenant_data ∧
  a.covenant_combined_image = b.covenant_combined_image ∧
  a.covenant_attributes_image = b.covenant_attributes_image

/-- Stated from the spec's words for comparison with the code's
`effectiveThreshold` (text-extraction step 4): the acceptance bar the spec
describes, as a function that additionally sees whether the enhancement pass
succeeded — "a lower bar (as low as 0.3) for character-heavy regions that
were heavily binarized, a mid bar for other preprocessed regions, and the
configured baseline bar for unprocessed or failed-preprocessing fallbacks".
The code computes its bar without consulting success, so the two differ when
preprocessing is enabled but the enhancement fell back to the original
image. -/
def specClaimThreshold (cfg : Config) (preprocSucceeded : Bool)
    (region : Option String) : ℚ :=
  if cfg.preprocessing_enabled && preprocSucceeded then
    if isCharRegion region then min cfg.postprocessed_confidence_threshold (3/10)
    else cfg.postprocessed_confidence_threshold
  else cfg.confidence_threshold

/-! ## Concrete instances used by the closed theorems -/

/-- A decoded 2×2 test image. -/
def imgA : Img := { width := 2, height := 2, pixel := fun _ _ => (0, 0, 0) }

/-- A one-entry region table that does not contain the names probed by the
missing-region theorems. -/
def regionsA : List (String × Rect) := [("GeneralsListCount", (0, 0, 1, 1))]

/-- An OCR environment whose reader always sees one high-confidence
fragment. -/
def ocrEnvA : OCREnv := {
  readerOk := true,
  decode := fun _ => some imgA,
  crop := fun i _ => i,
  enhanceGeneralText := fun i => i,
  enhanceCharRec := fun i => i,
  preprocessOther := fun i => i,
  readtext := fun _ => [("HELLO", 1)],
  encodePng := fun _ => [8] }

/-- As `ocrEnvA` but the reader sees one mid-confidence fragment, and the
standard preprocessing pass returns its input unchanged — the observable
behaviour of `preprocess_image` after an internal failure. -/
def ocrEnvHalf : OCREnv := { ocrEnvA with readtext := fun _ => [("hi", 1/2)] }

/-- As `ocrEnvA` but the reader sees the spec's number-extraction example. -/
def ocrEnvNum : OCREnv := { ocrEnvA with readtext := fun _ => [("143,657 12", 1)] }

/-- A PIL environment whose image decoding always fails. -/
def pilEnvBad : PILEnv := {
  decode := fun _ => none,
  resample := fun i _ _ => i.pixel,
  blank := fun w h => { width := w, height := h, pixel := fun _ _ => (0, 0, 0) },
  paste := fun c _ _ => c,
  encodePng := fun _ => [8] }

/-- A navigation environment where every tap lands, the screenshot succeeds,
and the reference comparison reports `true` exactly for the mode toggle
(so all three toggles get tapped). -/
def navEnvA : NavEnv := {
  tapOk := fun _ => true,
  shotOk := true,
  cmp := fun p _ => p = "GeneralsListMode" }

/-- An engine whose every extraction succeeds with confidence 1 (the
pixel-color check reports a match, so entities are not flagged purple). -/
def happyEngine : Engine := {
  extractText := fun _ _ => some ⟨"X", 1⟩,
  extractImage := fun _ _ => some [7],
  checkPixelColor := fun _ _ _ _ => true,
  checkTemplateMatch := fun _ _ => true,
  templateExists := true,
  combineImages := fun _ => [9],
  resizeHalfPng := fun b => b,
  covenantAttributesImage := [3] }

/-- As `happyEngine` but the covenant co-general name read returns `None`,
triggering the unguarded `name_result.text` access. -/
def covNoneEngine : Engine := { happyEngine with
  extractText := fun _ r =>
    if r = some "GeneralsListCovenantCoGenName" then none else some ⟨"X", 1⟩ }

/-- An entity pass in which every navigation, screenshot and tap succeeds. -/
def happyEnv : EntityEnv := {
  openDetailsOk := true, mainShot := some [1],
  navCultOk := true, cultShot := some [1],
  navSpecOk := true, specShot := some [1],
  specTapOk := fun _ => true, specSlotShot := fun _ => some [1],
  navCovOk := true, covShot := some [1],
  covTapGeneralOk := true, covSlotShot := fun _ => some [1] }

/-- As `happyEnv` but navigation to the cultivation screen fails. -/
def noCultEnv : EntityEnv := { happyEnv with navCultOk := false }

/-- As `happyEnv` but opening the general's details fails. -/
def failOpenEnv : EntityEnv := { happyEnv with openDetailsOk := false }

/-- As `happyEnv` but the cultivation navigation fails, the specialty
navigation fails and the covenant screenshot comes back empty (falsy): all
three sub-screen visits are skipped. -/
def noSubEnv : EntityEnv := { happyEnv with
  navCultOk := false, navSpecOk := false, covShot := some [] }

/-- A record whose variant flag was computed as "not purple". -/
def gRegular : General := { is_purple_general := some false }

/-! ## Helper lemmas -/

theorem sequenceOpt_none {xs : List (Option Img)} (h : none ∈ xs) :
    sequenceOpt xs = none := by
  induction xs with
  | nil => cases h
  | cons x rest ih =>
    cases x with
    | none => rfl
    | some a =>
      rcases List.mem_cons.mp h with h1 | h2
      · exact absurd h1.symm (by simp)
      · simp [sequenceOpt, ih h2]

theorem pyMaxNat_fold_spec (l : List Nat) :
    ∀ (acc : Option Nat) (v : Nat),
      l.foldl (fun acc v => match acc with
        | none => some v
        | some m => some (max m v)) acc = some v →
      (v ∈ l ∨ acc = some v) ∧ (∀ w ∈ l, w ≤ v) ∧ (∀ m, acc = some m → m ≤ v) := by
  induction l with
  | nil =>
    intro acc v h
    refine ⟨Or.inr h, by simp, ?_⟩
    intro m hm
    rw [hm] at h
    have : m = v := by injection h
    omega
  | cons x rest ih =>
    intro acc v h
    simp only [List.foldl_cons] at h
    cases acc with
    | none =>
      obtain ⟨hmem, hub, hacc⟩ := ih (some x) v h
      have hxv : x ≤ v := hacc x rfl
      refine ⟨?_, ?_, ?_⟩
      · rcases hmem with h1 | h2
        · exact Or.inl (List.mem_cons_of_mem _ h1)
        · have : x = v := by injection h2
          exact Or.inl (this ▸ List.mem_cons_self x rest)
      · intro w hw
        rcases List.mem_cons.mp hw with hw1 | hw2
        · rw [hw1]
          exact hxv
        · exact hub w hw2
      · intro m hm
        exact absurd hm (by simp)
    | some m0 =>
      obtain ⟨hmem, hub, hacc⟩ := ih (some (max m0 x)) v h
      have hmx : max m0 x ≤ v := hacc _ rfl
      refine ⟨?_, ?_, ?_⟩
      · rcases hmem with h1 | h2
        · exact Or.inl (List.mem_cons_of_mem _ h1)
        · have hv : max m0 x = v := by injection h2
          rcases max_choice m0 x with hc | hc
          · exact Or.inr (by rw [← hv, hc])
          · rw [hc] at hv
            exact Or.inl (hv ▸ List.mem_cons_self x rest)
      · intro w hw
        rcases List.mem_cons.mp hw with hw1 | hw2
        · rw [hw1]
          exact le_trans (le_max_right m0 x) hmx
        · exact hub w hw2
      · intro m hm
        have hm0 : m0 = m := by injection hm
        subst hm0
        exact le_trans (le_max_left m0 x) hmx

theorem pyMaxNat_spec {l : List Nat} {v : Nat} (h : pyMaxNat l = some v) :
    v ∈ l ∧ ∀ w ∈ l, w ≤ v := by
  unfold pyMaxNat at h
  obtain ⟨hmem, hub, _⟩ := pyMaxNat_fold_spec l none v h
  rcases hmem with h1 | h2
  · exact ⟨h1, hub⟩
  · exact absurd h2 (by simp)

theorem lookupScore_setScore_self (m : List (String × ℚ)) (k : String) (v : ℚ) :
    lookupScore (setScore m k v) k = some v := by
  unfold setScore
  split
  case isTrue hany =>
    unfold lookupScore
    induction m with
    | nil => simp at hany
    | cons p rest ih =>
      by_cases hp : p.1 = k
      · simp [hp]
      · simp only [List.any_cons, Bool.or_eq_true, decide_eq_true_eq] at hany
        rcases hany with h1 | h2
        · exact absurd h1 hp
        · simp only [List.map_cons, if_neg hp]
          rw [List.find?_cons_of_neg _ (by simp [hp])]
          exact ih (by simpa using h2)
  case isFalse hany =>
    unfold lookupScore
    induction m with
    | nil => simp
    | cons p rest ih =>
      simp only [List.any_cons, Bool.or_eq_true, decide_eq_true_eq, not_or] at hany
      obtain ⟨hp, hrest⟩ := hany
      simp only [List.cons_append]
      rw [List.find?_cons_of_neg _ (by simp [hp])]
      exact ih (by simpa using hrest)

theorem lookupScore_map_update (m : List (String × ℚ)) (k k2 : String) (v : ℚ)
    (h : k ≠ k2) :
    lookupScore (m.map (fun p => if p.1 = k then (k, v) else p)) k2 = lookupScore m k2 := by
  unfold lookupScore
  induction m with
  | nil => simp
  | cons p rest ih =>
    by_cases hp : p.1 = k
    · simp only [List.map_cons, if_pos hp]
      rw [List.find?_cons_of_neg _ (by simpa using h),
          List.find?_cons_of_neg _ (by rw [hp]; simpa using h)]
      exact ih
    · simp only [List.map_cons, if_neg hp]
      by_cases hp2 : p.1 = k2
      · simp [hp2]
      · rw [List.find?_cons_of_neg _ (by simp [hp2]),
            List.find?_cons_of_neg _ (by simp [hp2])]
        exact ih

theorem lookupScore_append_single (m : List (String × ℚ)) (k k2 : String) (v : ℚ)
    (h : k ≠ k2) :
    lookupScore (m ++ [(k, v)]) k2 = lookupScore m k2 := by
  unfold lookupScore
  induction m with
  | nil =>
    simp only [List.nil_append]
    rw [List.find?_cons_of_neg _ (by simpa using h)]
  | cons p rest ih =>
    by_cases hp2 : p.1 = k2
    · simp [hp2]
    · simp only [List.cons_append]
      rw [List.find?_cons_of_neg _ (by simp [hp2]),
          List.find?_cons_of_neg _ (by simp [hp2])]
      exact ih

theorem lookupScore_setScore_of_ne (m : List (String × ℚ)) (k k2 : String) (v : ℚ)
    (h : k ≠ k2) : lookupScore (setScore m k v) k2 = lookupScore m k2 := by
  unfold setScore
  split
  · exact lookupScore_map_update m k k2 v h
  · exact lookupScore_append_single m k k2 v h

theorem parseLvName_fields (t : String) (g : General) :
    (parseLvName t g).confidence_scores = g.confidence_scores ∧
    (parseLvName t g).cultivation_data = g.cultivation_data ∧
    (parseLvName t g).is_purple_general = g.is_purple_general := by
  unfold parseLvName
  dsimp only
  split
  · split
    · split <;> exact ⟨rfl, rfl, rfl⟩
    · exact ⟨rfl, rfl, rfl⟩
  · exact ⟨rfl, rfl, rfl⟩

theorem mainNameField_fields (r : Option OCRResult) (g : General) :
    (mainNameField r g).confidence_scores = g.confidence_scores ∧
    (mainNameField r g).cultivation_data = g.cultivation_data ∧
    (mainNameField r g).is_purple_general = g.is_purple_general := by
  unfold mainNameField
  match r with
  | none => exact ⟨rfl, rfl, rfl⟩
  | some res =>
    by_cases h : res.text = ""
    · simp only [h]
      exact ⟨rfl, rfl, rfl⟩
    · simp only [if_pos (by simpa using h)]
      exact parseLvName_fields res.text g

theorem extractMain_aux_fields (eng : Engine) (shot : Bytes) :
    lookupScore (extractMainGeneralData eng {} shot).confidence_scores "cultivation" = none ∧
    lookupScore (extractMainGeneralData eng {} shot).confidence_scores "specialty" = none ∧
    lookupScore (extractMainGeneralData eng {} shot).confidence_scores "covenant" = none ∧
    (extractMainGeneralData eng {} shot).cultivation_data = "" ∧
    (extractMainGeneralData eng {} shot).is_purple_general = none := by
  have hm := mainNameField_fields (eng.extractText shot (some "GeneralsListName")) {}
  simp only [extractMainGeneralData]
  refine ⟨?_, ?_, ?_, ?_, ?_⟩ <;>
    simp [setScore, lookupScore, hm.1, hm.2.1, hm.2.2]

theorem parseLvName_untouched (t : String) (g : General) :
    (parseLvName t g).specialty_names = g.specialty_names ∧
    (parseLvName t g).specialty_combined_image = g.specialty_combined_image ∧
    (parseLvName t g).covenant_names = g.covenant_names ∧
    (parseLvName t g).covenant_data = g.covenant_data ∧
    (parseLvName t g).covenant_combined_image = g.covenant_combined_image ∧
    (parseLvName t g).covenant_attributes_image = g.covenant_attributes_image := by
  unfold parseLvName
  dsimp only
  split
  · split
    · split <;> exact ⟨rfl, rfl, rfl, rfl, rfl, rfl⟩
    · exact ⟨rfl, rfl, rfl, rfl, rfl, rfl⟩
  · exact ⟨rfl, rfl, rfl, rfl, rfl, rfl⟩

theorem mainNameField_untouched (r : Option OCRResult) (g : General) :
    (mainNameField r g).specialty_names = g.specialty_names ∧
    (mainNameField r g).specialty_combined_image = g.specialty_combined_image ∧
    (mainNameField r g).covenant_names = g.covenant_names ∧
    (mainNameField r g).covenant_data = g.covenant_data ∧
    (mainNameField r g).covenant_combined_image = g.covenant_combined_image ∧
    (mainNameField r g).covenant_attributes_image = g.covenant_attributes_image := by
  unfold mainNameField
  match r with
  | none => exact ⟨rfl, rfl, rfl, rfl, rfl, rfl⟩
  | some res =>
    by_cases h : res.text = ""
    · simp only [h]
      exact ⟨rfl, rfl, rfl, rfl, rfl, rfl⟩
    · simp only [if_pos (by simpa using h)]
      exact parseLvName_untouched res.text g

theorem extractMain_untouched (eng : Engine) (shot : Bytes) :
    (extractMainGeneralData eng {} shot).specialty_names = none ∧
    (extractMainGeneralData eng {} shot).specialty_combined_image = none ∧
    (extractMainGeneralData eng {} shot).covenant_names = none ∧
    (extractMainGeneralData eng {} shot).covenant_data = "" ∧
    (extractMainGeneralData eng {} shot).covenant_combined_image = none ∧
    (extractMainGeneralData eng {} shot).covenant_attributes_image = none := by
  have hm := mainNameField_untouched (eng.extractText shot (some "GeneralsListName")) {}
  simp only [extractMainGeneralData]
  refine ⟨?_, ?_, ?_, ?_, ?_, ?_⟩ <;>
    simp [hm.1, hm.2.1, hm.2.2.1, hm.2.2.2.1, hm.2.2.2.2.1, hm.2.2.2.2.2]

theorem extractMain_groupFields (eng : Engine) (shot : Bytes) :
    cultFieldsEq (extractMainGeneralData eng {} shot) {} ∧
    specFieldsEq (extractMainGeneralData eng {} shot) {} ∧
    covFieldsEq (extractMainGeneralData eng {} shot) {} := by
  have h := extractMain_aux_fields eng shot
  have hu := extractMain_untouched eng shot
  exact ⟨⟨h.1, h.2.2.2.1, h.2.2.2.2⟩,
         ⟨h.2.1, hu.1, hu.2.1⟩,
         ⟨h.2.2.1, hu.2.2.1, hu.2.2.2.1, hu.2.2.2.2.1, hu.2.2.2.2.2⟩⟩

theorem cultFieldsEq_trans {a b c : General} (h1 : cultFieldsEq a b)
    (h2 : cultFieldsEq b c) : cultFieldsEq a c :=
  ⟨h1.1.trans h2.1, h1.2.1.trans h2.2.1, h1.2.2.trans h2.2.2⟩

theorem specFieldsEq_trans {a b c : General} (h1 : specFieldsEq a b)
    (h2 : specFieldsEq b c) : specFieldsEq a c :=
  ⟨h1.1.trans h2.1, h1.2.1.trans h2.2.1, h1.2.2.trans h2.2.2⟩

theorem covFieldsEq_trans {a b c : General} (h1 : covFieldsEq a b)
    (h2 : covFieldsEq b c) : covFieldsEq a c :=
  ⟨h1.1.trans h2.1, h1.2.1.trans h2.2.1, h1.2.2.1.trans h2.2.2.1,
   h1.2.2.2.1.trans h2.2.2.2.1, h1.2.2.2.2.trans h2.2.2.2.2⟩

theorem cultFieldsEq_refl (a : General) : cultFieldsEq a a := ⟨rfl, rfl, rfl⟩

theorem specFieldsEq_refl (a : General) : specFieldsEq a a := ⟨rfl, rfl, rfl⟩

theorem covFieldsEq_refl (a : General) : covFieldsEq a a := ⟨rfl, rfl, rfl, rfl, rfl⟩

theorem extractCultivationData_pres (eng : Engine) (g : General) (shot : Bytes) :
    specFieldsEq (extractCultivationData eng g shot) g ∧
    covFieldsEq (extractCultivationData eng g shot) g := by
  unfold extractCultivationData
  dsimp only
  refine ⟨⟨?_, rfl, rfl⟩, ⟨?_, rfl, rfl, rfl, rfl⟩⟩ <;>
    exact lookupScore_setScore_of_ne _ _ _ _ (by decide)

theorem extractSpecialtyData_err (eng : Engine) (env : EntityEnv) (g : General)
    (shot : Bytes) (e : General)
    (h : extractSpecialtyData eng env g shot = .error e) : e = g := by
  unfold extractSpecialtyData at h
  cases hp : g.is_purple_general with
  | none =>
    rw [hp] at h
    dsimp only at h
    injection h with h1
    exact h1.symm
  | some purple =>
    rw [hp] at h
    dsimp only at h
    exact Except.noConfusion h

theorem extractSpecialtyData_ok_pres (eng : Engine) (env : EntityEnv)
    (g : General) (shot : Bytes) (g3 : General)
    (h : extractSpecialtyData eng env g shot = .ok g3) :
    cultFieldsEq g3 g ∧ covFieldsEq g3 g := by
  unfold extractSpecialtyData at h
  cases hp : g.is_purple_general with
  | none =>
    rw [hp] at h
    dsimp only at h
    exact Except.noConfusion h
  | some purple =>
    rw [hp] at h
    dsimp only at h
    injection h with h1
    subst h1
    refine ⟨⟨?_, rfl, hp.symm⟩, ⟨?_, rfl, rfl, rfl, rfl⟩⟩ <;>
      exact lookupScore_setScore_of_ne _ _ _ _ (by decide)

theorem extractCovenantData_err (eng : Engine) (env : EntityEnv) (g : General)
    (shot : Bytes) (e : General)
    (h : extractCovenantData eng env g shot = .error e) : e = g := by
  unfold extractCovenantData at h
  split at h
  · exact Except.noConfusion h
  · split at h
    · injection h with h1
      exact h1.symm
    · dsimp only at h
      exact Except.noConfusion h

theorem extractCovenantData_ok_pres (eng : Engine) (env : EntityEnv)
    (g : General) (shot : Bytes) (g4 : General)
    (h : extractCovenantData eng env g shot = .ok g4) :
    cultFieldsEq g4 g ∧ specFieldsEq g4 g := by
  unfold extractCovenantData at h
  split at h
  · injection h with h1
    subst h1
    refine ⟨⟨?_, rfl, rfl⟩, ⟨?_, rfl, rfl⟩⟩ <;>
      exact lookupScore_setScore_of_ne _ _ _ _ (by decide)
  · split at h
    · exact Except.noConfusion h
    · dsimp only at h
      injection h with h1
      subst h1
      refine ⟨⟨?_, rfl, rfl⟩, ⟨?_, rfl, rfl⟩⟩ <;>
        exact lookupScore_setScore_of_ne _ _ _ _ (by decide)

theorem cultStage_skip (eng : Engine) (env : EntityEnv) (g : General)
    (h : env.navCultOk = false ∨ env.cultShot = none ∨ env.cultShot = some []) :
    cultStage eng env g = g := by
  rcases h with h | h | h <;> simp [cultStage, h]

theorem specStage_skip (eng : Engine) (env : EntityEnv) (g : General)
    (h : env.navSpecOk = false ∨ env.specShot = none ∨ env.specShot = some []) :
    specStage eng env g = .ok g := by
  rcases h with h | h | h <;> simp [specStage, h]

theorem covStage_skip (eng : Engine) (env : EntityEnv) (g : General)
    (h : env.navCovOk = false ∨ env.covShot = none ∨ env.covShot = some []) :
    covStage eng env g = .ok g := by
  rcases h with h | h | h <;> simp [covStage, h]

theorem cultStage_pres (eng : Engine) (env : EntityEnv) (g : General) :
    specFieldsEq (cultStage eng env g) g ∧ covFieldsEq (cultStage eng env g) g := by
  unfold cultStage
  split
  · split
    · split
      · exact ⟨specFieldsEq_refl g, covFieldsEq_refl g⟩
      · exact extractCultivationData_pres eng g _
    · exact ⟨specFieldsEq_refl g, covFieldsEq_refl g⟩
  · exact ⟨specFieldsEq_refl g, covFieldsEq_refl g⟩

theorem specStage_err (eng : Engine) (env : EntityEnv) (g e : General)
    (h : specStage eng env g = .error e) : e = g := by
  unfold specStage at h
  split at h
  · split at h
    · split at h
      · exact Except.noConfusion h
      · exact extractSpecialtyData_err eng env g _ e h
    · exact Except.noConfusion h
  · exact Except.noConfusion h

theorem specStage_ok_pres (eng : Engine) (env : EntityEnv) (g g3 : General)
    (h : specStage eng env g = .ok g3) :
    cultFieldsEq g3 g ∧ covFieldsEq g3 g := by
  unfold specStage at h
  split at h
  · split at h
    · split at h
      · injection h with h1
        subst h1
        exact ⟨cultFieldsEq_refl g, covFieldsEq_refl g⟩
      · exact extractSpecialtyData_ok_pres eng env g _ g3 h
    · injection h with h1
      subst h1
      exact ⟨cultFieldsEq_refl g, covFieldsEq_refl g⟩
  · injection h with h1
    subst h1
    exact ⟨cultFieldsEq_refl g, covFieldsEq_refl g⟩

theorem covStage_err (eng : Engine) (env : EntityEnv) (g e : General)
    (h : covStage eng env g = .error e) : e = g := by
  unfold covStage at h
  split at h
  · split at h
    · split at h
      · exact Except.noConfusion h
      · exact extractCovenantData_err eng env g _ e h
    · exact Except.noConfusion h
  · exact Except.noConfusion h

theorem covStage_ok_pres (eng : Engine) (env : EntityEnv) (g g4 : General)
    (h : covStage eng env g = .ok g4) :
    cultFieldsEq g4 g ∧ specFieldsEq g4 g := by
  unfold covStage at h
  split at h
  · split at h
    · split at h
      · injection h with h1
        subst h1
        exact ⟨cultFieldsEq_refl g, specFieldsEq_refl g⟩
      · exact extractCovenantData_ok_pres eng env g _ g4 h
    · injection h with h1
      subst h1
      exact ⟨cultFieldsEq_refl g, specFieldsEq_refl g⟩
  · injection h with h1
    subst h1
    exact ⟨cultFieldsEq_refl g, specFieldsEq_refl g⟩

theorem collectSingleBody_noOpen (eng : Engine) (env : EntityEnv) (cfg : Config)
    (h : env.openDetailsOk = false) :
    collectSingleBody eng env cfg = .error {} := by
  simp [collectSingleBody, h]

theorem collectSingleBody_noShot (eng : Engine) (env : EntityEnv) (cfg : Config)
    (ho : env.openDetailsOk = true) (hm : env.mainShot = none) :
    collectSingleBody eng env cfg = .error {} := by
  simp [collectSingleBody, ho, hm]

theorem collectSingleBody_live (eng : Engine) (env : EntityEnv) (cfg : Config)
    (mb : Bytes) (ho : env.openDetailsOk = true) (hm : env.mainShot = some mb) :
    collectSingleBody eng env cfg =
      covPhase eng env cfg
        (specStage eng env (cultStage eng env (extractMainGeneralData eng {} mb))) := by
  unfold collectSingleBody
  rw [ho, hm]
  with_unfolding_all rfl

theorem collect_spec_error (eng : Engine) (env : EntityEnv) (cfg : Config)
    (mb : Bytes) (e : General)
    (ho : env.openDetailsOk = true) (hm : env.mainShot = some mb)
    (hs : specStage eng env (cultStage eng env (extractMainGeneralData eng {} mb))
          = .error e) :
    collectSingleGeneral eng env cfg = { e with is_uncertain := true } := by
  unfold collectSingleGeneral
  rw [collectSingleBody_live eng env cfg mb ho hm, hs]
  rfl

theorem collect_cov_error (eng : Engine) (env : EntityEnv) (cfg : Config)
    (mb : Bytes) (g3 e : General)
    (ho : env.openDetailsOk = true) (hm : env.mainShot = some mb)
    (hs : specStage eng env (cultStage eng env (extractMainGeneralData eng {} mb))
          = .ok g3)
    (hc : covStage eng env g3 = .error e) :
    collectSingleGeneral eng env cfg = { e with is_uncertain := true } := by
  unfold collectSingleGeneral
  rw [collectSingleBody_live eng env cfg mb ho hm, hs]
  simp only [covPhase]
  rw [hc]

theorem collect_cov_ok (eng : Engine) (env : EntityEnv) (cfg : Config)
    (mb : Bytes) (g3 g4 : General)
    (ho : env.openDetailsOk = true) (hm : env.mainShot = some mb)
    (hs : specStage eng env (cultStage eng env (extractMainGeneralData eng {} mb))
          = .ok g3)
    (hc : covStage eng env g3 = .ok g4) :
    collectSingleGeneral eng env cfg = classifyStage cfg g4 := by
  unfold collectSingleGeneral
  rw [collectSingleBody_live eng env cfg mb ho hm, hs]
  simp only [covPhase]
  rw [hc]

theorem collect_cultSkip (eng : Engine) (env : EntityEnv) (cfg : Config)
    (h : env.navCultOk = false ∨ env.cultShot = none ∨ env.cultShot = some []) :
    cultFieldsEq (collectSingleGeneral eng env cfg) {} := by
  cases ho : env.openDetailsOk with
  | false =>
    have hr : collectSingleGeneral eng env cfg = { ({} : General) with is_uncertain := true } := by
      unfold collectSingleGeneral
      rw [collectSingleBody_noOpen eng env cfg ho]
    rw [hr]
    exact ⟨rfl, rfl, rfl⟩
  | true =>
    cases hm : env.mainShot with
    | none =>
      have hr : collectSingleGeneral eng env cfg = { ({} : General) with is_uncertain := true } := by
        unfold collectSingleGeneral
        rw [collectSingleBody_noShot eng env cfg ho hm]
      rw [hr]
      exact ⟨rfl, rfl, rfl⟩
    | some mb =>
      have hg := (extractMain_groupFields eng mb).1
      have hc2 := cultStage_skip eng env (extractMainGeneralData eng {} mb) h
      cases hs : specStage eng env (cultStage eng env (extractMainGeneralData eng {} mb)) with
      | error e =>
        have he := specStage_err eng env _ e hs
        rw [collect_spec_error eng env cfg mb e ho hm hs, he, hc2]
        exact ⟨hg.1, hg.2.1, hg.2.2⟩
      | ok g3 =>
        have h3 := (specStage_ok_pres eng env _ g3 hs).1
        rw [hc2] at h3
        have h31 := cultFieldsEq_trans h3 hg
        cases hc : covStage eng env g3 with
        | error e =>
          have he := covStage_err eng env g3 e hc
          rw [collect_cov_error eng env cfg mb g3 e ho hm hs hc, he]
          exact ⟨h31.1, h31.2.1, h31.2.2⟩
        | ok g4 =>
          have h4 := (covStage_ok_pres eng env g3 g4 hc).1
          have h41 := cultFieldsEq_trans h4 h31
          rw [collect_cov_ok eng env cfg mb g3 g4 ho hm hs hc]
          exact ⟨h41.1, h41.2.1, h41.2.2⟩

theorem collect_specSkip (eng : Engine) (env : EntityEnv) (cfg : Config)
    (h : env.navSpecOk = false ∨ env.specShot = none ∨ env.specShot = some []) :
    specFieldsEq (collectSingleGeneral eng env cfg) {} := by
  cases ho : env.openDetailsOk with
  | false =>
    have hr : collectSingleGeneral eng env cfg = { ({} : General) with is_uncertain := true } := by
      unfold collectSingleGeneral
      rw [collectSingleBody_noOpen eng env cfg ho]
    rw [hr]
    exact ⟨rfl, rfl, rfl⟩
  | true =>
    cases hm : env.mainShot with
    | none =>
      have hr : collectSingleGeneral eng env cfg = { ({} : General) with is_uncertain := true } := by
        unfold collectSingleGeneral
        rw [collectSingleBody_noShot eng env cfg ho hm]
      rw [hr]
      exact ⟨rfl, rfl, rfl⟩
    | some mb =>
      have hg := (extractMain_groupFields eng mb).2.1
      have hcp := (cultStage_pres eng env (extractMainGeneralData eng {} mb)).1
      have h2 := specFieldsEq_trans hcp hg
      have hskip := specStage_skip eng env
        (cultStage eng env (extractMainGeneralData eng {} mb)) h
      cases hc : covStage eng env (cultStage eng env (extractMainGeneralData eng {} mb)) with
      | error e =>
        have he := covStage_err eng env _ e hc
        rw [collect_cov_error eng env cfg mb _ e ho hm hskip hc, he]
        exact ⟨h2.1, h2.2.1, h2.2.2⟩
      | ok g4 =>
        have h4 := (covStage_ok_pres eng env _ g4 hc).2
        have h41 := specFieldsEq_trans h4 h2
        rw [collect_cov_ok eng env cfg mb _ g4 ho hm hskip hc]
        exact ⟨h41.1, h41.2.1, h41.2.2⟩

theorem collect_covSkip (eng : Engine) (env : EntityEnv) (cfg : Config)
    (h : env.navCovOk = false ∨ env.covShot = none ∨ env.covShot = some []) :
    covFieldsEq (collectSingleGeneral eng env cfg) {} := by
  cases ho : env.openDetailsOk with
  | false =>
    have hr : collectSingleGeneral eng env cfg = { ({} : General) with is_uncertain := true } := by
      unfold collectSingleGeneral
      rw [collectSingleBody_noOpen eng env cfg ho]
    rw [hr]
    exact ⟨rfl, rfl, rfl, rfl, rfl⟩
  | true =>
    cases hm : env.mainShot with
    | none =>
      have hr : collectSingleGeneral eng env cfg = { ({} : General) with is_uncertain := true } := by
        unfold collectSingleGeneral
        rw [collectSingleBody_noShot eng env cfg ho hm]
      rw [hr]
      exact ⟨rfl, rfl, rfl, rfl, rfl⟩
    | some mb =>
      have hg := (extractMain_groupFields eng mb).2.2
      have hcp := (cultStage_pres eng env (extractMainGeneralData eng {} mb)).2
      have h2 := covFieldsEq_trans hcp hg
      cases hs : specStage eng env (cultStage eng env (extractMainGeneralData eng {} mb)) with
      | error e =>
        have he := specStage_err eng env _ e hs
        rw [collect_spec_error eng env cfg mb e ho hm hs, he]
        exact ⟨h2.1, h2.2.1, h2.2.2.1, h2.2.2.2.1, h2.2.2.2.2⟩
      | ok g3 =>
        have h3 := (specStage_ok_pres eng env _ g3 hs).2
        have h31 := covFieldsEq_trans h3 h2
        have hskip := covStage_skip eng env g3 h
        rw [collect_cov_ok eng env cfg mb g3 g3 ho hm hs hskip]
        exact ⟨h31.1, h31.2.1, h31.2.2.1, h31.2.2.2.1, h31.2.2.2.2⟩

theorem collect_cascade (eng : Engine) (env : EntityEnv) (cfg : Config)
    (mb sb : Bytes)
    (ho : env.openDetailsOk = true) (hm : env.mainShot = some mb)
    (hcult : env.navCultOk = false ∨ env.cultShot = none ∨ env.cultShot = some [])
    (hspec : env.navSpecOk = true) (hss : env.specShot = some sb)
    (hsb : sb.isEmpty = false) :
    collectSingleGeneral eng env cfg
      = { extractMainGeneralData eng {} mb with is_uncertain := true } := by
  have hc2 := cultStage_skip eng env (extractMainGeneralData eng {} mb) hcult
  have hp := (extractMain_aux_fields eng mb).2.2.2.2
  have hs : specStage eng env (cultStage eng env (extractMainGeneralData eng {} mb))
      = .error (extractMainGeneralData eng {} mb) := by
    rw [hc2]
    unfold specStage
    simp only [hspec, hss, hsb]
    simp only [if_true, Bool.false_eq_true, if_false]
    unfold extractSpecialtyData
    rw [hp]
  exact collect_spec_error eng env cfg mb _ ho hm hs
/-- C1: the claim says the average of every collected record's confidence map
lies in [0, 1], each per-group score — including the covenant score over the
four covenant sub-screens — being a mean over its group.  The code violates
this: `_extract_covenant_data` accumulates four per-slot confidences but
divides by 3 (`application_controller.py` line 543).  Evaluated at a pass in
which every read succeeds with confidence 1, the covenant score is 4/3 and
the record's average is 19/18 > 1. -/
theorem C1_covenant_overflow :
    lookupScore (collectSingleGeneral happyEngine happyEnv {}).confidence_scores "covenant"
      = some (4/3) ∧
    (collectSingleGeneral happyEngine happyEnv {}).get_average_confidence = 19/18 ∧
    ¬ ((19 : ℚ)/18 ≤ 1) := by
  with_unfolding_all decide

/-- C2 counterexample: when the covenant name read returns `None` while the
slot image is truthy, the unguarded `name_result.text` raises; the handler
sets `is_uncertain := True` even though the partial record's average
confidence is 1 ≥ the default threshold 0.8 — refuting the claimed invariant
`is_uncertain == (average < threshold)` on exception paths. -/
theorem C2_exception_counterexample :
    (collectSingleGeneral covNoneEngine happyEnv {}).is_uncertain = true ∧
    (collectSingleGeneral covNoneEngine happyEnv {}).get_average_confidence = 1 ∧
    ¬ ((1 : ℚ) < ({} : Config).confidence_threshold) := by
  with_unfolding_all decide

/-- C2 (amended): on the path where the per-entity pass runs to completion,
`is_uncertain` equals `average(confidence_map) < configured threshold`; on
every early-return or exception path it is unconditionally `True`, regardless
of the threshold comparison. -/
theorem C2_uncertain_iff_threshold (eng : Engine) (env : EntityEnv) (cfg : Config)
    (g : General) :
    (collectSingleBody eng env cfg = .ok g →
      (collectSingleGeneral eng env cfg).is_uncertain
        = decide (g.get_average_confidence < cfg.confidence_threshold)) ∧
    (collectSingleBody eng env cfg = .error g →
      (collectSingleGeneral eng env cfg).is_uncertain = true) := by
  constructor
  · intro h
    unfold collectSingleGeneral
    rw [h]
    unfold collectSingleBody at h
    split at h
    · exact Except.noConfusion h
    · split at h
      · exact Except.noConfusion h
      · dsimp only at h
        split at h
        · exact Except.noConfusion h
        · split at h
          · exact Except.noConfusion h
          · injection h with h2
            subst h2
            rfl
  · intro h
    unfold collectSingleGeneral
    rw [h]

/-- C2 witness: the amended theorem applied to a pass whose details screen
fails to open. -/
theorem C2_threshold_witness :
    (collectSingleGeneral happyEngine failOpenEnv {}).is_uncertain = true :=
  (C2_uncertain_iff_threshold happyEngine failOpenEnv {} {}).2 rfl

/-- C4 (amended): a sub-screen visit whose navigation fails or whose
screenshot comes back missing or empty is skipped entirely: the group's
fields keep their defaults and no confidence entry — not even a zero — is
recorded for the group, whose key is absent from the map and therefore
excluded from the average rather than contributing zero.  This holds for
each of the three sub-screens (cultivation, specialty, covenant).  The skip
is not always harmless, contrary to the claim's "never aborts": whenever the
cultivation visit was skipped while the specialty screen opens with a truthy
screenshot, the specialty step reads the never-assigned `is_purple_general`
attribute and raises `AttributeError`; the per-entity handler catches it,
the covenant step never executes, and the entity is returned flagged
uncertain carrying only its main-screen data. -/
theorem C4_subscreen_skip (eng : Engine) (env : EntityEnv) (cfg : Config) :
    ((env.navCultOk = false ∨ env.cultShot = none ∨ env.cultShot = some []) →
      lookupScore (collectSingleGeneral eng env cfg).confidence_scores "cultivation" = none ∧
      (collectSingleGeneral eng env cfg).cultivation_data = "" ∧
      (collectSingleGeneral eng env cfg).is_purple_general = none) ∧
    ((env.navSpecOk = false ∨ env.specShot = none ∨ env.specShot = some []) →
      lookupScore (collectSingleGeneral eng env cfg).confidence_scores "specialty" = none ∧
      (collectSingleGeneral eng env cfg).specialty_names = none ∧
      (collectSingleGeneral eng env cfg).specialty_combined_image = none) ∧
    ((env.navCovOk = false ∨ env.covShot = none ∨ env.covShot = some []) →
      lookupScore (collectSingleGeneral eng env cfg).confidence_scores "covenant" = none ∧
      (collectSingleGeneral eng env cfg).covenant_names = none ∧
      (collectSingleGeneral eng env cfg).covenant_data = "" ∧
      (collectSingleGeneral eng env cfg).covenant_combined_image = none ∧
      (collectSingleGeneral eng env cfg).covenant_attributes_image = none) ∧
    (∀ mb sb : Bytes, env.openDetailsOk = true → env.mainShot = some mb →
      (env.navCultOk = false ∨ env.cultShot = none ∨ env.cultShot = some []) →
      env.navSpecOk = true → env.specShot = some sb → sb.isEmpty = false →
      (collectSingleGeneral eng env cfg).is_uncertain = true ∧
      lookupScore (collectSingleGeneral eng env cfg).confidence_scores "specialty" = none ∧
      lookupScore (collectSingleGeneral eng env cfg).confidence_scores "covenant" = none) := by
  refine ⟨fun h => ?_, fun h => ?_, fun h => ?_, fun mb sb ho hm hcult hspec hss hsb => ?_⟩
  · have hc := collect_cultSkip eng env cfg h
    exact ⟨hc.1, hc.2.1, hc.2.2⟩
  · have hc := collect_specSkip eng env cfg h
    exact ⟨hc.1, hc.2.1, hc.2.2⟩
  · have hc := collect_covSkip eng env cfg h
    exact ⟨hc.1, hc.2.1, hc.2.2.1, hc.2.2.2.1, hc.2.2.2.2⟩
  · have hr := collect_cascade eng env cfg mb sb ho hm hcult hspec hss hsb
    rw [hr]
    have h := extractMain_aux_fields eng mb
    exact ⟨rfl, h.2.1, h.2.2.1⟩

/-- C4 counterexample: with cultivation navigation failing and everything
else succeeding, the record carries no `cultivation` entry and no "Unknown"
placeholder, and — although the covenant screen would have opened
(`navCovOk = true`) — no `specialty` or `covenant` entry either: the
specialty step raised `AttributeError` (`is_purple_general` never set),
aborting the rest of the entity's pass, contrary to the claim. -/
theorem C4_skipped_cultivation_counterexample :
    lookupScore (collectSingleGeneral happyEngine noCultEnv {}).confidence_scores
      "cultivation" = none ∧
    (collectSingleGeneral happyEngine noCultEnv {}).cultivation_data = "" ∧
    lookupScore (collectSingleGeneral happyEngine noCultEnv {}).confidence_scores
      "specialty" = none ∧
    lookupScore (collectSingleGeneral happyEngine noCultEnv {}).confidence_scores
      "covenant" = none ∧
    (collectSingleGeneral happyEngine noCultEnv {}).is_uncertain = true ∧
    noCultEnv.navCovOk = true := by
  with_unfolding_all decide

/-- C4 witness: the amended theorem applied at two concrete environments —
one in which all three sub-screen visits are skipped (failed cultivation and
specialty navigation, empty covenant screenshot) and one exhibiting the
cascading `AttributeError` after a skipped cultivation visit. -/
theorem C4_subscreen_skip_witness :
    ((collectSingleGeneral happyEngine noSubEnv {}).specialty_names = none ∧
     (collectSingleGeneral happyEngine noSubEnv {}).covenant_names = none ∧
     lookupScore (collectSingleGeneral happyEngine noSubEnv {}).confidence_scores
       "cultivation" = none) ∧
    (collectSingleGeneral happyEngine noCultEnv {}).is_uncertain = true := by
  have h1 := C4_subscreen_skip happyEngine noSubEnv {}
  have h2 := C4_subscreen_skip happyEngine noCultEnv {}
  exact ⟨⟨(h1.2.1 (Or.inl rfl)).2.1, (h1.2.2.1 (Or.inr (Or.inr rfl))).2.1,
          (h1.1 (Or.inl rfl)).1⟩,
         (h2.2.2.2 [1] [1] rfl rfl (Or.inl rfl) rfl rfl rfl).1⟩

/-- C10: side-by-side image composition returns empty bytes for an empty
input list, returns a single element unchanged (no decoding, normalization
or re-encoding), and returns empty bytes instead of raising when any truthy
element of a multi-element list fails to decode. -/
theorem C10_combine_edge_cases (env : PILEnv) (b : Bytes) (l : List Bytes)
    (bad : Bytes) :
    combine_images_side_by_side env [] = [] ∧
    combine_images_side_by_side env [b] = b ∧
    (2 ≤ l.length → bad ∈ l → bad ≠ [] → env.decode bad = none →
      combine_images_side_by_side env l = []) := by
  refine ⟨rfl, rfl, ?_⟩
  intro hlen hmem hne hdec
  match l, hlen with
  | b1 :: b2 :: rest, _ =>
    have hmem2 : bad ∈ (b1 :: b2 :: rest).filter (fun b => !b.isEmpty) := by
      rw [List.mem_filter]
      exact ⟨hmem, by simp [List.isEmpty_iff, hne]⟩
    have hnone : (none : Option Img) ∈
        ((b1 :: b2 :: rest).filter (fun b => !b.isEmpty)).map env.decode := by
      rw [List.mem_map]
      exact ⟨bad, hmem2, hdec⟩
    simp only [combine_images_side_by_side]
    rw [sequenceOpt_none hnone]

/-- C10 witness: the decode-failure case at a concrete failing decoder. -/
theorem C10_combine_witness :
    combine_images_side_by_side pilEnvBad [[1], [2]] = [] :=
  (C10_combine_edge_cases pilEnvBad [] [[1], [2]] [1]).2.2 (by decide) (by decide)
    (by decide) rfl

/-- C9: number extraction parses all comma-grouped or plain digit runs of
the text result, strips the separators, and returns the maximum parsed value
with the text confidence scaled by 0.95; it returns `None` exactly when the
text yields no parsed value or text extraction failed; in particular
`"143,657 12"` parses to the runs 143657 and 12 and yields 143657. -/
theorem C9_number_extraction (env : OCREnv) (cfg : Config)
    (regions : List (String × Rect)) (b : Bytes) (region : Option String) :
    (∀ tr, extract_text env cfg regions b region = some tr →
      (∀ v, pyMaxNat (matchValues tr.text) = some v →
        extract_number env cfg regions b region = some ⟨v, tr.confidence * (19/20)⟩ ∧
        v ∈ matchValues tr.text ∧ ∀ w ∈ matchValues tr.text, w ≤ v) ∧
      (pyMaxNat (matchValues tr.text) = none →
        extract_number env cfg regions b region = none) ∧
      (tr.text = "143,657 12" →
        extract_number env cfg regions b region = some ⟨143657, tr.confidence * (19/20)⟩)) ∧
    (extract_text env cfg regions b region = none →
      extract_number env cfg regions b region = none) ∧
    matchValues "143,657 12" = [143657, 12] := by
  refine ⟨?_, ?_, by decide⟩
  · intro tr htr
    refine ⟨?_, ?_, ?_⟩
    · intro v hv
      obtain ⟨hmem, hub⟩ := pyMaxNat_spec hv
      refine ⟨?_, hmem, hub⟩
      unfold extract_number
      rw [htr]
      dsimp only
      rw [hv]
    · intro hv
      unfold extract_number
      rw [htr]
      dsimp only
      rw [hv]
    · intro htext
      have hval : pyMaxNat (matchValues tr.text) = some 143657 := by
        rw [htext]
        decide
      unfold extract_number
      rw [htr]
      dsimp only
      rw [hval]
  · intro h
    unfold extract_number
    rw [h]

/-- C9 witness: the extraction theorem at an environment whose OCR reads
the spec's example text. -/
theorem C9_number_extraction_witness :
    extract_number ocrEnvNum {} regionsA [5] none = some ⟨143657, 1 * (19/20)⟩ :=
  ((C9_number_extraction ocrEnvNum {} regionsA [5] none).1 ⟨"143,657 12", 1⟩
    (by with_unfolding_all decide)).2.2 rfl

/-- C8: count extraction returns `(current_int, stripped_text)` when the
stripped counter text contains `/`, splits on it into exactly two parts and
the first parses as a Python int — so `"7/42"` yields `(7, "7/42")` — and on
any parse failure returns `(0, stripped_text_or_empty)` — so `"abc"` yields
`(0, "abc")`; a failed OCR read or missing screenshot yields `(0, "")`, and
the collector treats any non-positive count as the terminal error
"No generals found". -/
theorem C8_count_parsing (env : OCREnv) (cfg : Config)
    (regions : List (String × Rect)) (b : Bytes) :
    parseCountText "7/42" = (7, "7/42") ∧
    parseCountText "abc" = (0, "abc") ∧
    (∀ t cur tot n, ((pyStrip t).toList.contains '/') = true →
      pySplitChar '/' (pyStrip t) = [cur, tot] →
      pyInt? cur = some n → parseCountText t = (n, pyStrip t)) ∧
    (∀ t, parseCountText t = (0, pyStrip t) ∨
      ∃ cur tot n, pySplitChar '/' (pyStrip t) = [cur, tot] ∧ pyInt? cur = some n ∧
        parseCountText t = (n, pyStrip t)) ∧
    (extract_text env cfg regions b (some "GeneralsListCount") = none →
      getTotalGeneralsCount env cfg regions (some b) = (0, "")) ∧
    getTotalGeneralsCount env cfg regions none = (0, "") ∧
    (∀ n : Int, checkGeneralsCount n = Except.error "No generals found" ↔ n ≤ 0) := by
  refine ⟨by decide, by decide, ?_, ?_, ?_, rfl, ?_⟩
  · intro t cur tot n h1 h2 h3
    simp only [parseCountText, h1, if_true, h2, h3]
  · intro t
    by_cases hc : ((pyStrip t).toList.contains '/') = true
    · cases hs : pySplitChar '/' (pyStrip t) with
      | nil => left; simp only [parseCountText, hc, if_true, hs]
      | cons cur rest =>
        cases rest with
        | nil => left; simp only [parseCountText, hc, if_true, hs]
        | cons tot rest2 =>
          cases rest2 with
          | nil =>
            cases hp : pyInt? cur with
            | none => left; simp only [parseCountText, hc, if_true, hs, hp]
            | some n =>
              right
              refine ⟨cur, tot, n, rfl, hp, ?_⟩
              simp only [parseCountText, hc, if_true, hs, hp]
          | cons z r3 => left; simp only [parseCountText, hc, if_true, hs]
    · left
      simp only [Bool.not_eq_true] at hc
      simp only [parseCountText, hc, Bool.false_eq_true, if_false]
  · intro h
    unfold getTotalGeneralsCount
    by_cases hb : b.isEmpty
    · simp [hb]
    · simp only [hb, if_false, h]
      simp only [Bool.not_eq_true] at hb
      simp [hb]
  · intro n
    unfold checkGeneralsCount
    constructor
    · intro h
      by_contra hn
      simp [hn] at h
    · intro h
      simp [h]

/-- C8 witness: the success case of the parsing theorem at `"7/42"`. -/
theorem C8_count_parsing_witness :
    parseCountText "7/42" = (7, pyStrip "7/42") :=
  (C8_count_parsing ocrEnvA {} regionsA [5]).2.2.1 "7/42" "7" "42" 7
    (by decide) (by decide) (by decide)


/-- C3: for each of the three toggle filters, `set_generals_list_state` taps
the toggle exactly when the reference comparison has the polarity that marks
the desired state as not yet active (mode: comparison true; favorites and
idle: comparison false), records the per-filter changed flag exactly when it
tapped, and `reset_generals_list_state` then replays exactly the flagged
taps, restoring the original screen state; tapping a toggle twice is the
identity. -/
theorem C3_filter_round_trip (env : NavEnv) (s : FilterScreen)
    (htap : ∀ p, env.tapOk p = true) (hshot : env.shotOk = true) :
    (setGeneralsListState env s).1 = true ∧
    (setGeneralsListState env s).2.1.mode = env.cmp "GeneralsListMode" s ∧
    (setGeneralsListState env s).2.1.favorites = !env.cmp "GeneralsListFavorites" s ∧
    (setGeneralsListState env s).2.1.idle = !env.cmp "GeneralsListIdle" s ∧
    (resetGeneralsListState env (setGeneralsListState env s).2.1
      (setGeneralsListState env s).2.2).2 = s ∧
    (∀ p t, tapFilterToggle p (tapFilterToggle p t) = t) := by
  have htog : ∀ p t, tapFilterToggle p (tapFilterToggle p t) = t := by
    intro p t
    unfold tapFilterToggle
    by_cases h1 : p = "GeneralsListMode"
    · simp [h1]
    · by_cases h2 : p = "GeneralsListFavorites"
      · simp [h1, h2]
      · by_cases h3 : p = "GeneralsListIdle"
        · simp [h1, h2, h3]
        · simp [h1, h2, h3]
  refine ⟨?_, ?_, ?_, ?_, ?_, htog⟩ <;>
  · simp only [setGeneralsListState, resetGeneralsListState]
    cases hm : env.cmp "GeneralsListMode" s <;>
    cases hf : env.cmp "GeneralsListFavorites" s <;>
    cases hi : env.cmp "GeneralsListIdle" s <;>
      simp [htap, hshot, tapFilterToggle, hm, hf, hi]

/-- C3 witness: the round trip at a concrete environment in which all three
toggles get tapped. -/
theorem C3_filter_round_trip_witness :
    (resetGeneralsListState navEnvA (setGeneralsListState navEnvA ⟨false, true, false⟩).2.1
      (setGeneralsListState navEnvA ⟨false, true, false⟩).2.2).2 = ⟨false, true, false⟩ :=
  (C3_filter_round_trip navEnvA ⟨false, true, false⟩ (fun _ => rfl) rfl).2.2.2.2.1

/-- C5 counterexample: for a region name absent from the region table,
`extract_text` does not return `None` — it falls back to OCR over the full
image and here returns a successful result — and `extract_image` returns the
re-encoded full image; only `check_pixel_color` returns `False`. -/
theorem C5_unknown_region_counterexample :
    extract_text ocrEnvA {} regionsA [5] (some "Bogus") = some ⟨"HELLO", 1⟩ ∧
    extract_image ocrEnvA regionsA [5] (some "Bogus") = some [8] ∧
    check_pixel_color ocrEnvA regionsA [5] "Bogus" (0, 0, 0) 10 = false := by
  with_unfolding_all decide

/-- C5 (amended): for every region name absent from the region table,
`check_pixel_color` returns `False`; `extract_image` returns the re-encoded
full image whenever the bytes decode; `extract_text` and `extract_number`
process the full image exactly as when no region is given (for names outside
the character-enhanced class) and may return a successful result.  None of
the four raises — each is a total function of its environment. -/
theorem C5_unknown_region_behavior (env : OCREnv) (cfg : Config)
    (regions : List (String × Rect)) (b : Bytes) (r : String)
    (expected : Int × Int × Int) (tol : Int)
    (hr : lookupRegion regions r = none) :
    check_pixel_color env regions b r expected tol = false ∧
    extract_image env regions b (some r) = (env.decode b).map env.encodePng ∧
    (characterEnhancedRegions.contains r = false →
      extract_text env cfg regions b (some r) = extract_text env cfg regions b none ∧
      extract_number env cfg regions b (some r) = extract_number env cfg regions b none) := by
  have hbind : (some r).bind (lookupRegion regions) = none := by
    simp [Option.bind, hr]
  refine ⟨?_, ?_, ?_⟩
  · unfold check_pixel_color
    cases hd : env.decode b with
    | none => rfl
    | some img =>
      rw [hr]
  · unfold extract_image
    cases hd : env.decode b with
    | none => rfl
    | some img =>
      dsimp only
      rw [hbind]
      rfl
  · intro hchar
    have hiso : isCharRegion (some r) = isCharRegion none := by
      simp only [isCharRegion]
      exact hchar
    have hpi : ∀ img, processedImage env cfg regions img (some r)
        = processedImage env cfg regions img none := by
      intro img
      unfold processedImage
      rw [hiso, hbind]
      rfl
    have hth : effectiveThreshold cfg (some r) = effectiveThreshold cfg none := by
      unfold effectiveThreshold
      rw [hiso]
    have htext : extract_text env cfg regions b (some r)
        = extract_text env cfg regions b none := by
      unfold extract_text
      cases env.readerOk
      · rfl
      · cases hd : env.decode b with
        | none => rfl
        | some img =>
          dsimp only
          rw [hpi, hth]
    exact ⟨htext, by unfold extract_number; rw [htext]⟩

/-- C5 witness: the amended theorem applied at a concrete unknown region
name. -/
theorem C5_unknown_region_witness :
    check_pixel_color ocrEnvA regionsA [5] "Bogus2" (0, 0, 0) 10 = false :=
  (C5_unknown_region_behavior ocrEnvA {} regionsA [5] "Bogus2" (0, 0, 0) 10 rfl).1

/-- C6 counterexample: with preprocessing enabled but the enhancement pass
falling back to the unmodified image (modelled by an identity pass), the code
still filters at the postprocessed bar 0.4 and keeps a 0.5-confidence
fragment, whereas the spec's rule (`specClaimThreshold`, baseline 0.8 for
failed-preprocessing fallbacks) would discard it and return `None`. -/
theorem C6_failed_preprocessing_counterexample :
    extract_text ocrEnvHalf {} regionsA [5] (some "GeneralsListCount") = some ⟨"hi", 1/2⟩ ∧
    effectiveThreshold {} (some "GeneralsListCount") = 2/5 ∧
    specClaimThreshold {} false (some "GeneralsListCount") = 4/5 ∧
    ¬ (specClaimThreshold {} false (some "GeneralsListCount") ≤ 1/2) := by
  with_unfolding_all decide

/-- C6 (amended): a fragment survives exactly when its confidence is at
least `effectiveThreshold`, which depends only on the region class and the
`preprocessing_enabled` flag — at most 0.3 for character-heavy regions, the
postprocessed threshold for other regions whenever preprocessing is enabled
(whether or not the enhancement succeeded), the baseline only when it is
disabled; survivors are joined space-separated with the mean of their
confidences, and an empty surviving set (or empty OCR output, unreadable
bytes, or a failed reader) yields `None`. -/
theorem C6_fragment_filtering (env : OCREnv) (cfg : Config)
    (regions : List (String × Rect)) (b : Bytes) (region : Option String) :
    (∀ res, extract_text env cfg regions b region = some res →
      ∃ img kept, env.readerOk = true ∧ env.decode b = some img ∧
        kept = (env.readtext (processedImage env cfg regions img region)).filter
          (fun p => effectiveThreshold cfg region ≤ p.2) ∧
        kept ≠ [] ∧
        res.text = pyJoin " " (kept.map (fun p => p.1)) ∧
        res.confidence = (kept.map (fun p => p.2)).sum / (kept.length : ℚ)) ∧
    (extract_text env cfg regions b region = none ↔
      env.readerOk = false ∨ env.decode b = none ∨
      ∀ img, env.decode b = some img →
        (env.readtext (processedImage env cfg regions img region)).filter
          (fun p => effectiveThreshold cfg region ≤ p.2) = []) ∧
    (isCharRegion region = true → effectiveThreshold cfg region ≤ 3/10) ∧
    (isCharRegion region = false → effectiveThreshold cfg region =
      if cfg.preprocessing_enabled then cfg.postprocessed_confidence_threshold
      else cfg.confidence_threshold) := by
  have hjoin : ∀ thr results res2, joinFragments thr results = some res2 →
      (results.filter (fun p => thr ≤ p.2) ≠ [] ∧
       res2.text = pyJoin " " ((results.filter (fun p => thr ≤ p.2)).map (fun p => p.1)) ∧
       res2.confidence = ((results.filter (fun p => thr ≤ p.2)).map (fun p => p.2)).sum
         / (((results.filter (fun p => thr ≤ p.2)).length : ℚ))) := by
    intro thr results res2 h
    unfold joinFragments at h
    by_cases h1 : results.isEmpty
    · simp [h1] at h
    · simp only [h1, Bool.false_eq_true, if_false] at h
      by_cases h2 : (results.filter (fun p => thr ≤ p.2)).isEmpty
      · simp [h2] at h
      · simp only [h2, Bool.false_eq_true, if_false, Option.some.injEq] at h
        refine ⟨by simpa [List.isEmpty_iff] using h2, ?_, ?_⟩
        · rw [← h]
        · rw [← h]
  have hjoinNone : ∀ thr results, joinFragments thr results = none ↔
      results.filter (fun p => thr ≤ p.2) = [] := by
    intro thr results
    unfold joinFragments
    by_cases h1 : results.isEmpty
    · simp [h1, List.isEmpty_iff.mp h1]
    · simp only [h1, Bool.false_eq_true, if_false]
      by_cases h2 : (results.filter (fun p => thr ≤ p.2)).isEmpty
      · simp [h2, List.isEmpty_iff.mp h2]
      · simp only [h2, Bool.false_eq_true, if_false]
        constructor
        · intro h
          exact absurd h (by simp)
        · intro h
          rw [List.isEmpty_iff] at h2
          exact absurd h h2
  refine ⟨?_, ?_, ?_, ?_⟩
  · intro res h
    unfold extract_text at h
    cases hro : env.readerOk
    · rw [hro] at h
      simp at h
    · rw [hro] at h
      simp only [Bool.not_true, Bool.false_eq_true, if_false] at h
      cases hd : env.decode b with
      | none =>
        rw [hd] at h
        simp at h
      | some img =>
        rw [hd] at h
        dsimp only at h
        obtain ⟨hne, ht, hc⟩ := hjoin _ _ _ h
        exact ⟨img, _, rfl, rfl, rfl, hne, ht, hc⟩
  · unfold extract_text
    cases hro : env.readerOk
    · simp
    · simp only [Bool.not_true, Bool.false_eq_true, if_false]
      cases hd : env.decode b with
      | none => simp
      | some img =>
        dsimp only
        rw [hjoinNone]
        constructor
        · intro h
          exact Or.inr (Or.inr (fun img2 h2 => by
            have himg : img = img2 := by injection h2
            rw [← himg]
            exact h))
        · intro h
          rcases h with h | h | h
          · exact absurd h (by simp)
          · exact absurd h (by simp [hd])
          · exact h img rfl
  · intro hchar
    unfold effectiveThreshold
    rw [hchar]
    simp only [if_true]
    exact min_le_right _ _
  · intro hchar
    unfold effectiveThreshold
    rw [hchar]
    simp

/-- C6 witness: the character-heavy bound of the amended theorem at the
name region. -/
theorem C6_fragment_filtering_witness :
    effectiveThreshold {} (some "GeneralsListName") ≤ 3/10 :=
  (C6_fragment_filtering ocrEnvA {} regionsA [5] (some "GeneralsListName")).2.2.1 (by decide)

/-- C7: when the record's variant flag was computed, the specialty loop
visits and records exactly 3 slots for the reduced (purple) variant and
exactly 5 otherwise — the preset list, the recorded name list, and the
confidence divisor all agree — and the extraction reuses the stored flag
rather than recomputing it: it is invariant under any change to the engine's
pixel-color check. -/
theorem C7_specialty_slot_count (eng : Engine) (env : EntityEnv) (g : General)
    (shot : Bytes) (b : Bool) (hflag : g.is_purple_general = some b) :
    (specialtyPresets b).length = (if b then 3 else 5) ∧
    (specialtySlotsResult eng env b).1.length = (if b then 3 else 5) ∧
    (∃ g2, extractSpecialtyData eng env g shot = .ok g2 ∧
      g2.specialty_names = some (pyJoin "\n" (specialtySlotsResult eng env b).1) ∧
      lookupScore g2.confidence_scores "specialty"
        = some ((specialtySlotsResult eng env b).2.2 / (if b then 3 else 5))) ∧
    (∀ f, extractSpecialtyData { eng with checkPixelColor := f } env g shot
        = extractSpecialtyData eng env g shot) := by
  have hstep : ∀ acc ip, ((specialtySlotStep eng env) acc ip).1.length = acc.1.length + 1 := by
    intro acc ip
    unfold specialtySlotStep
    dsimp only
    repeat' split
    all_goals simp
  have hfold : ∀ (l : List (Nat × String)) (acc : List String × List Bytes × ℚ),
      ((l.foldl (specialtySlotStep eng env) acc).1).length = acc.1.length + l.length := by
    intro l
    induction l with
    | nil => intro acc; simp
    | cons x rest ih =>
      intro acc
      simp only [List.foldl_cons, ih, hstep, List.length_cons]
      omega
  refine ⟨by cases b <;> rfl, ?_, ?_, ?_⟩
  · unfold specialtySlotsResult
    rw [hfold]
    cases b <;> simp [specialtyPresets]
  · unfold extractSpecialtyData
    rw [hflag]
    dsimp only
    exact ⟨_, rfl, rfl, lookupScore_setScore_self _ _ _⟩
  · intro f
    rfl

/-- C7 witness: the slot count at a concrete engine and a record flagged as
the regular variant. -/
theorem C7_specialty_slot_count_witness :
    (specialtySlotsResult happyEngine happyEnv false).1.length = (if false then 3 else 5) :=
  (C7_specialty_slot_count happyEngine happyEnv gRegular [1] false rfl).2.1

end ActiveGenerals
